import Mathlib

/-!
Verification of the PairDrop printer service against its specification.

The development shallowly embeds the JavaScript sources:
  * `src/server/printer-service.js`  — discovery registry, capability probing,
    transport dispatch, IPP submission, CUPS (spooler) submission;
  * the PWG raster encoder (`pwg-raster.js`) — `_buildPWGHeader` and
    `_buildPageData`.

JavaScript strings are modelled as `List Char`, byte buffers as `List Nat`
(each entry one byte), `undefined`-able values as `Option`, and the
`Map`-backed printer registry as a `List Printer` in insertion order.
Node `Buffer` writes are sequential, so a buffer built by consecutive
`write`/`fill` calls is embedded as the concatenation of the written
segments in source order.
-/

namespace PairDrop

/-- Characters of a Lean string literal, used to transcribe JS string
literals. -/
def str (s : String) : List Char := s.toList

/-- Decimal digits of a natural number, modelling JS number-to-string
interpolation of a nonnegative integer. -/
def showNat (n : Nat) : List Char := Nat.toDigits 10 n

/-- ASCII fragment of JS `String.prototype.toLowerCase`, applied
character-wise (all strings handled by the service are ASCII). -/
def toLowerL (s : List Char) : List Char := s.map Char.toLower

/-- `startsWithL pat s` is true when `pat` is an initial segment of `s`
(JS `String.prototype.startsWith`). -/
def startsWithL : List Char → List Char → Bool
  | [], _ => true
  | _ :: _, [] => false
  | p :: ps, c :: cs => p = c && startsWithL ps cs

/-- `containsSub s pat` is true when `pat` occurs contiguously in `s`
(JS `String.prototype.includes`). -/
def containsSub (s pat : List Char) : Bool := s.tails.any (fun t => startsWithL pat t)

/-- JS `x || d` for an optional string: `undefined` and the empty string
fall back to the default. -/
def jsOrStr (o : Option (List Char)) (d : List Char) : List Char :=
  match o with
  | some s => if s = [] then d else s
  | none => d

/-- JS `x || d` for an optional number: `undefined` and `0` fall back to
the default. -/
def jsOrNat (o : Option Nat) (d : Nat) : Nat :=
  match o with
  | some n => if n = 0 then d else n
  | none => d

/-! ## Byte-buffer primitives for the PWG raster encoder -/

/-- A run of `n` zero bytes (`buffer.fill(0, …)` / zero-initialised
regions of `Buffer.alloc`). -/
def z (n : Nat) : List Nat := List.replicate n 0

/-- Big-endian 4-byte encoding of `v` (`buffer.writeUInt32BE`; the values
written by the encoder all fit in 32 bits). -/
def u32 (v : Nat) : List Nat :=
  [v / 16777216 % 256, v / 65536 % 256, v / 256 % 256, v % 256]

/-- The PWG synchronization word `'RaS2'` written as ASCII bytes. -/
def pwgMagic : List Nat := [82, 97, 83, 50]

/-- Concatenation of a list of segments. -/
def flatL {α : Type} : List (List α) → List α
  | [] => []
  | s :: ss => s ++ flatL ss

/-- Read back a big-endian 32-bit integer at byte offset `off` (out-of-range
bytes read as 0). -/
def readU32 (bs : List Nat) (off : Nat) : Nat :=
  bs.getD off 0 * 16777216 + bs.getD (off + 1) 0 * 65536 +
    bs.getD (off + 2) 0 * 256 + bs.getD (off + 3) 0

/-- JS `Math.round(a / b)` for nonnegative exact rational `a / b`:
round-half-up, i.e. `⌊(2a + b) / 2b⌋`. -/
def jsRound (a b : Nat) : Nat := (2 * a + b) / (2 * b)

/-- The 1796-byte output of `PWGRasterEncoder._buildPWGHeader(width, height,
options)`: the 4-byte sync word followed by the 1792-byte page header,
written by the source's sequence of `fill`/`writeUInt32BE` calls (each
`++` segment is one source write, in order; the final segment is the
closing `buffer.fill(0, offset, 1796)`). `copies` is `options.copies`
(`options.copies || 1` in the source). -/
def pwgHeader (width height : Nat) (copies : Option Nat) : List Nat :=
  pwgMagic ++                         -- 'RaS2'
  z 64 ++                             -- MediaColor
  z 64 ++                             -- MediaType
  z 64 ++                             -- PrintContentOptimize
  z 12 ++                             -- reserved
  u32 0 ++                            -- CutMedia
  u32 0 ++                            -- Duplex
  u32 300 ++ u32 300 ++               -- HWResolution
  z 16 ++                             -- reserved
  u32 0 ++                            -- InsertSheet
  u32 0 ++                            -- Jog
  u32 0 ++                            -- LeadingEdge
  z 12 ++                             -- reserved
  u32 0 ++                            -- MediaPosition
  u32 0 ++                            -- MediaWeight
  z 8 ++                              -- reserved
  u32 (jsOrNat copies 1) ++           -- NumCopies
  u32 0 ++                            -- Orientation
  z 4 ++                              -- reserved
  u32 (jsRound (width * 72) 300) ++   -- PageSize width (points)
  u32 (jsRound (height * 72) 300) ++  -- PageSize height (points)
  z 16 ++                             -- reserved
  u32 0 ++                            -- Tumble
  u32 width ++                        -- Width (pixels)
  u32 height ++                       -- Height (pixels)
  z 4 ++                              -- reserved
  u32 8 ++                            -- BitsPerColor
  u32 24 ++                           -- BitsPerPixel
  u32 (width * 3) ++                  -- BytesPerLine
  u32 0 ++                            -- ColorOrder (chunky)
  u32 19 ++                           -- ColorSpace (sRGB)
  z 16 ++                             -- reserved
  u32 3 ++                            -- NumColors
  z 28 ++                             -- reserved
  u32 1 ++                            -- TotalPageCount
  u32 1 ++                            -- CrossFeedTransform
  u32 1 ++                            -- FeedTransform
  u32 0 ++ u32 0 ++                   -- ImageBoxLeft, ImageBoxTop
  u32 width ++ u32 height ++          -- ImageBoxRight, ImageBoxBottom
  z 8 ++                              -- AlternatePrimary, PrintQuality
  z 1360                              -- closing fill to byte 1796

/-- The three bytes copied for pixel `x` of row `y` by the inner loop of
`PWGRasterEncoder._buildPageData` (reads past the end of a JS typed array
yield `undefined`, which the `Uint8Array` store coerces to 0 — hence
`getD _ 0`). -/
def pwgPixel (rgb : List Nat) (width channels y x : Nat) : List Nat :=
  [rgb.getD (y * width * channels + x * channels) 0,
   rgb.getD (y * width * channels + x * channels + 1) 0,
   rgb.getD (y * width * channels + x * channels + 2) 0]

/-- One scanline record of `_buildPageData`: the repeat count byte `1`
followed by the `width * 3` bytes copied pixel-wise from the source
buffer. -/
def pwgLine (rgb : List Nat) (width channels y : Nat) : List Nat :=
  1 :: flatL ((List.range width).map (pwgPixel rgb width channels y))

/-- `PWGRasterEncoder._buildPageData(rgbData, width, height, channels)`:
the concatenation of one scanline record per row. -/
def pwgPageData (rgb : List Nat) (width height channels : Nat) : List Nat :=
  flatL ((List.range height).map (pwgLine rgb width channels))

/-- The byte output of `PWGRasterEncoder.encode` after the external image
library has produced the raw pixel buffer: header followed by page data
(`Buffer.concat([header, pageData])`). -/
def pwgEncode (rgb : List Nat) (width height channels : Nat)
    (copies : Option Nat) : List Nat :=
  pwgHeader width height copies ++ pwgPageData rgb width height channels

/-- The header rewritten as an explicit segment list with all-zero runs
merged; used to read fields back and to show every unspecified byte is
zero.  Definitionally equal to `pwgHeader`. -/
def pwgSegs (width height : Nat) (copies : Option Nat) : List (List Nat) :=
  [pwgMagic, z 212, u32 300, u32 300, z 56, u32 (jsOrNat copies 1), z 8,
   u32 (jsRound (width * 72) 300), u32 (jsRound (height * 72) 300), z 20,
   u32 width, u32 height, z 4, u32 8, u32 24, u32 (width * 3), z 4, u32 19,
   z 16, u32 3, z 28, u32 1, u32 1, u32 1, z 8, u32 width, u32 height, z 1368]

/-- Sum of the lengths of a list of segments. -/
def sumLen (ss : List (List Nat)) : Nat := (ss.map List.length).sum

/-! ## Queue Matcher (`_mapPrinterToCUPS`) -/

/-- JS `s.replace(/[^a-zA-Z0-9]/g, '')`: keep only ASCII letters and
digits. -/
def stripNonAlnum (s : List Char) : List Char :=
  s.filter (fun c => c.isAlpha || c.isDigit)

/-- `_mapPrinterToCUPS(printer)` with `printer.name = name` against the
detected CUPS queue list: first an exact case-insensitive match, then a
match after stripping non-alphanumeric characters, then a case-insensitive
substring match in either direction; `none` when all fail.  (The source's
initial `if (!this._cupsPrinterQueues) return null` guard concerns an
uninitialised queue list and is subsumed by passing the list explicitly.) -/
def mapPrinterToCUPS (name : List Char) (queues : List (List Char)) :
    Option (List Char) :=
  let exactM := queues.find? (fun q => toLowerL q == toLowerL name)
  if exactM.isSome then exactM else
  let normalizedName := toLowerL (stripNonAlnum name)
  let fuzzyM := queues.find? (fun q => toLowerL (stripNonAlnum q) == normalizedName)
  if fuzzyM.isSome then fuzzyM else
  let subM := queues.find? (fun q =>
    containsSub (toLowerL q) (toLowerL name) ||
    containsSub (toLowerL name) (toLowerL q))
  if subM.isSome then subM else none

/-! ## Printer registry data model -/

/-- Printer `status` strings of the source: 'idle', 'printing', 'stopped',
'offline'. -/
inductive PStatus where
  | idle
  | printing
  | stopped
  | offline
deriving DecidableEq

/-- The `printer.capabilities` object filled in by
`_fetchPrinterCapabilities` (field defaults applied as in the source). -/
structure Caps where
  colorSupported : Bool
  sidesSupported : List (List Char)
  mediaSupported : List (List Char)
  documentFormatSupported : List (List Char)
  printerState : Option Nat
  printerStateReasons : Option (List Char)
deriving DecidableEq

/-- A registry entry (`printerInfo`).  `capabilities = none` models the
initial empty `{}` object. -/
structure Printer where
  id : List Char
  name : List Char
  host : List Char
  port : Nat
  ptype : List Char
  rp : List Char
  status : PStatus
  online : Bool
  capabilities : Option Caps
  lastSeen : Nat
  uri : List Char
deriving DecidableEq

/-- A Bonjour/mDNS service record as consumed by `_onPrinterDiscovered`:
`name`, optional `host`, `addresses` list, optional `port`, service `type`,
and the `rp` entry of the TXT record. -/
structure MDNSService where
  name : List Char
  host : Option (List Char)
  addresses : List (List Char)
  port : Option Nat
  stype : List Char
  rp : Option (List Char)
deriving DecidableEq

/-- JS `service.host || service.addresses?.[0]`; an absent result
interpolates as the literal string `"undefined"` in both the id data and
the URI, so the resolved string is stored. -/
def jsHost (s : MDNSService) : List Char :=
  match s.host with
  | some hst => if hst = [] then (s.addresses.head?).getD (str "undefined") else hst
  | none => (s.addresses.head?).getD (str "undefined")

/-- JS `service.port || 631` (`0` is falsy). -/
def jsPort (s : MDNSService) : Nat :=
  match s.port with
  | some p => if p = 0 then 631 else p
  | none => 631

/-- The string hashed by `_generatePrinterId`:
`` `${service.name}-${service.host || service.addresses?.[0]}-${service.port || 631}` ``.
The md5 digest itself is an external library call, so the development is
parameterised over the digest function `hash`. -/
def idData (s : MDNSService) : List Char :=
  s.name ++ str "-" ++ jsHost s ++ str "-" ++ showNat (jsPort s)

/-- `_buildPrinterUri`: `` `${protocol}://${host}:${port}/${rp}` `` with
protocol `ipps` exactly for service type `'ipps'`. -/
def buildPrinterUri (ptype hst : List Char) (port : Nat) (rp : List Char) :
    List Char :=
  (if ptype = str "ipps" then str "ipps" else str "ipp") ++ str "://" ++ hst ++
    str ":" ++ showNat port ++ str "/" ++ rp

/-! ## Capability Prober (`_fetchPrinterCapabilities`) -/

/-- The `printer-attributes-tag` group of a parsed IPP response; each
attribute is optional (`attrs['...']?.[0]?.value`). -/
structure ResAttrs where
  colorSupported : Option Bool
  sidesSupported : Option (List (List Char))
  mediaSupported : Option (List (List Char))
  documentFormatSupported : Option (List (List Char))
  printerState : Option Nat
  printerStateReasons : Option (List Char)
deriving DecidableEq

/-- Outcome of one `ipp.request` round-trip for a capability probe:
either the callback error (with its `message` and `code`) or the parsed
response attributes. -/
inductive IppResult where
  | failure (message : List Char) (code : List Char)
  | success (attrs : ResAttrs)
deriving DecidableEq

/-- The capability record built from a successful probe response, with the
source's `??` defaults. -/
def capsOfAttrs (a : ResAttrs) : Caps :=
  { colorSupported := a.colorSupported.getD false
  , sidesSupported := a.sidesSupported.getD [str "one-sided"]
  , mediaSupported := a.mediaSupported.getD [str "na_letter_8.5x11in"]
  , documentFormatSupported := a.documentFormatSupported.getD [str "application/octet-stream"]
  , printerState := a.printerState
  , printerStateReasons := a.printerStateReasons }

/-- Maps IPP `printer-state` codes to `status`: 3 idle, 4 printing,
5 stopped, anything else leaves the status unchanged. -/
def statusOfState (st : Option Nat) (old : PStatus) : PStatus :=
  if st = some 3 then .idle
  else if st = some 4 then .printing
  else if st = some 5 then .stopped
  else old

/-- `_fetchPrinterCapabilities(printer)` as a function of the request
outcome: the quirk failure `'Data required'` resolves with the printer
unchanged; any other failure rejects; success updates `capabilities` and
`status`. -/
def applyProbe (r : IppResult) (p : Printer) : Except (List Char) Printer :=
  match r with
  | .failure msg _ => if msg = str "Data required" then .ok p else .error msg
  | .success attrs =>
      .ok { p with capabilities := some (capsOfAttrs attrs)
                 , status := statusOfState attrs.printerState p.status }

/-! ## Discovery Manager -/

/-- Events emitted on the service's event emitter
(`printer-added` / `printer-updated`), carrying the entry. -/
inductive PEvent where
  | added (p : Printer)
  | updated (p : Printer)
deriving DecidableEq

/-- The `printerInfo` object built for a newly discovered service, before
the capability probe. -/
def discoveredBase (hash : List Char → List Char) (s : MDNSService)
    (now : Nat) : Printer :=
  { id := hash (idData s), name := s.name, host := jsHost s, port := jsPort s
  , ptype := s.stype, rp := jsOrStr s.rp (str "ipp/print")
  , status := PStatus.idle, online := true, capabilities := none
  , lastSeen := now
  , uri := buildPrinterUri s.stype (jsHost s) (jsPort s)
      (jsOrStr s.rp (str "ipp/print")) }

/-- The asynchronous capability fetch launched at discovery: its failure
is swallowed (the entry is announced either way), its success enriches the
entry in place. -/
def enrichNew (probe : IppResult) (base : Printer) : Printer :=
  match applyProbe probe base with
  | .ok b => b
  | .error _ => base

/-- `_onPrinterDiscovered(service)`: ignore nameless records; refresh an
existing entry (flipping it online with an update event when it was
offline); otherwise insert a new entry, enriched by the asynchronous
capability probe when that probe succeeds (probe failures are swallowed),
and emit `printer-added` either way.  The registry `Map` is modelled as a
list in insertion order; `now` is `Date.now()` and `probe` the outcome of
the launched capability request. -/
def onPrinterDiscovered (hash : List Char → List Char) (reg : List Printer)
    (s : MDNSService) (now : Nat) (probe : IppResult) :
    List Printer × List PEvent :=
  if s.name = [] then (reg, [])
  else
    let pid := hash (idData s)
    match reg.find? (fun p => p.id == pid) with
    | some p =>
        if p.online then
          (reg.map (fun q => if q.id == pid then { q with lastSeen := now } else q), [])
        else
          (reg.map (fun q => if q.id == pid then
              { q with lastSeen := now, online := true, status := PStatus.idle } else q),
           [PEvent.updated { p with lastSeen := now, online := true, status := PStatus.idle }])
    | none =>
        let enriched := enrichNew probe (discoveredBase hash s now)
        (reg ++ [enriched], [PEvent.added enriched])

/-- One entry's transition in `_refreshPrinterStatus`: past the 60 s
liveness window an online entry is marked offline with an update event;
otherwise the entry is re-probed — success and the `'Data required'`
quirk refresh `lastSeen`/`online` and emit an update, any other probe
failure leaves the entry untouched. -/
def refreshEntry (now : Nat) (probe : IppResult) (p : Printer) :
    Printer × List PEvent :=
  if now - p.lastSeen > 60000 then
    if p.online then
      ({ p with online := false, status := PStatus.offline },
       [PEvent.updated { p with online := false, status := PStatus.offline }])
    else (p, [])
  else
    match applyProbe probe p with
    | .ok p1 =>
        ({ p1 with lastSeen := now, online := true },
         [PEvent.updated { p1 with lastSeen := now, online := true }])
    | .error msg =>
        if msg = str "Data required" then
          ({ p with lastSeen := now, online := true },
           [PEvent.updated { p with lastSeen := now, online := true }])
        else (p, [])

/-- The whole periodic sweep `_refreshPrinterStatus`: every entry is
processed with the single timestamp captured at the start; `probes` gives
each entry's probe outcome. -/
def refreshPrinterStatus (reg : List Printer) (now : Nat)
    (probes : List Char → IppResult) : List Printer × List PEvent :=
  (reg.map (fun p => (refreshEntry now (probes p.id) p).1),
   flatL (reg.map (fun p => (refreshEntry now (probes p.id) p).2)))

/-! ## Job Dispatcher (`submitPrintJob`) -/

/-- The options object passed to `submitPrintJob`. -/
structure JobOptions where
  mimeType : Option (List Char)
  copies : Option Nat
  sides : Option (List Char)
  colorMode : Option (List Char)
  userName : Option (List Char)
deriving DecidableEq

/-- The three transport strategies: CUPS spooler, PWG-raster re-encoding
followed by IPP, or direct IPP. -/
inductive Route where
  | spooler
  | rasterThenIPP
  | directIPP
deriving DecidableEq

/-- The strategy selection of `submitPrintJob`, in source order: platform
`darwin`/`linux` → CUPS; an image mime type other than
`image/pwg-raster` → PWG raster then IPP; otherwise direct IPP.  (The
source's test for spooler availability is exactly this platform check.) -/
def selectPrintRoute (platform : List Char) (options : JobOptions) : Route :=
  let mime := toLowerL (options.mimeType.getD [])
  let isImage := startsWithL (str "image/") mime
  if platform = str "darwin" ∨ platform = str "linux" then .spooler
  else if isImage && !(mime == str "image/pwg-raster") then .rasterThenIPP
  else .directIPP

/-- `submitPrintJob(printerId, …)` up to transport selection: unknown id
and offline entries are rejected; otherwise the resolved entry and chosen
route. -/
def submitPrintJob (reg : List Printer) (platform : List Char)
    (printerId : List Char) (options : JobOptions) :
    Except (List Char) (Printer × Route) :=
  match reg.find? (fun p => p.id == printerId) with
  | none => .error (str "Printer not found")
  | some p =>
      if !p.online then .error (str "Printer is offline")
      else .ok (p, selectPrintRoute platform options)

/-- The result object resolved by the submission paths. -/
structure PrintJobResult where
  jobId : Option (List Char)
  jobState : Option (List Char)
  printerId : List Char
  printerName : List Char
deriving DecidableEq

/-! ## Protocol Transport (`_submitPrintJobViaIPP`) -/

/-- `uri.replace(/^ipp:/, 'ipps:')`: rewrite a leading `ipp:` scheme to
`ipps:`; a URI already starting `ipps:` is left unchanged. -/
def upgradeIppUri (uri : List Char) : List Char :=
  if startsWithL (str "ipp:") uri then str "ipps:" ++ uri.drop 4 else uri

/-- The Print-Job request's `operation-attributes-tag` as built by
`_submitPrintJobViaIPP`; the three optional attributes are present exactly
when the corresponding `if (options.…)` truthiness test passes. -/
structure IPPJobMsg where
  printerUri : List Char
  requestingUser : List Char
  jobName : List Char
  documentFormat : List Char
  copies : Option Nat
  sides : Option (List Char)
  colorMode : Option (List Char)
deriving DecidableEq

/-- Builds the Print-Job operation attributes from the registry entry,
file name and options (charset/language metadata omitted as constants). -/
def buildIPPJobMsg (p : Printer) (fileName : List Char)
    (options : JobOptions) : IPPJobMsg :=
  { printerUri := upgradeIppUri p.uri
  , requestingUser := jsOrStr options.userName (str "PairDrop")
  , jobName := fileName
  , documentFormat := toLowerL (jsOrStr options.mimeType (str "application/pdf"))
  , copies := match options.copies with
      | some n => if n = 0 then none else some n
      | none => none
  , sides := match options.sides with
      | some s => if s = [] then none else some s
      | none => none
  , colorMode := match options.colorMode with
      | some m => if m = [] then none else some m
      | none => none }

/-- Outcome of the Print-Job `ipp.request` round-trip: callback error
(message and `code`) or the parsed `job-attributes-tag` values. -/
inductive SubmitOutcome where
  | failure (message : List Char) (code : List Char)
  | success (jobId : Option (List Char)) (jobState : Option (List Char))
deriving DecidableEq

/-- The response handling of `_submitPrintJobViaIPP`'s `doRequest`
callback: the `'Data required'` quirk and a message containing `'426'`
(or `EPIPE` on a retry) resolve with a null job id and `'unknown'` state;
other errors reject; success resolves with the parsed job attributes. -/
def submitOutcomeResult (outcome : SubmitOutcome) (isRetry : Bool)
    (p : Printer) : Except (List Char) PrintJobResult :=
  match outcome with
  | .failure msg code =>
      if msg = str "Data required" then
        .ok { jobId := none, jobState := some (str "unknown")
            , printerId := p.id, printerName := p.name }
      else if containsSub msg (str "426") || (isRetry && code == str "EPIPE") then
        .ok { jobId := none, jobState := some (str "unknown")
            , printerId := p.id, printerName := p.name }
      else .error msg
  | .success jid jst =>
      .ok { jobId := jid, jobState := jst, printerId := p.id, printerName := p.name }

/-- `_submitPrintJobViaIPP` issues exactly one request,
`doRequest(printer.uri, false)`, so the retry flag is `false`. -/
def submitPrintJobViaIPP (outcome : SubmitOutcome) (p : Printer) :
    Except (List Char) PrintJobResult :=
  submitOutcomeResult outcome false p

/-! ## Spooler Transport (`_submitPrintJobViaCUPS`) -/

/-- Fallback queue name: `printer.name.replace(/[^a-zA-Z0-9_-]/g, '_')`. -/
def sanitizeQueueName (name : List Char) : List Char :=
  name.map (fun c => if c.isAlpha || c.isDigit || c = '_' || c = '-' then c else '_')

/-- `path.join(os.tmpdir(), `pairdrop-${Date.now()}-${fileName}`)`. -/
def tempFilePath (tmpdir : List Char) (now : Nat) (fileName : List Char) :
    List Char :=
  tmpdir ++ str "/pairdrop-" ++ showNat now ++ str "-" ++ fileName

/-- The shell command string `` `lp -d "${cupsName}" -n ${copies} "${tempFile}"` ``
built by direct template interpolation. -/
def cupsCommand (cupsName : List Char) (copies : Nat) (tempFile : List Char) :
    List Char :=
  str "lp -d \"" ++ cupsName ++ str "\" -n " ++ showNat copies ++ str " \"" ++
    tempFile ++ str "\""

/-- Outcome of the `exec` callback: an error (non-zero exit or timeout,
with the error message and captured streams) or success with the captured
streams. -/
inductive ExecOutcome where
  | failure (errMessage stdout stderr : List Char)
  | success (stdout stderr : List Char)
deriving DecidableEq

/-- One attempt of the regex `/request id is ([^ ]+)/` at a given suffix:
the literal text followed by a nonempty run of non-space characters. -/
def requestIdAt (t : List Char) : Option (List Char) :=
  if startsWithL (str "request id is ") t then
    let tok := (t.drop 14).takeWhile (fun c => c ≠ ' ')
    if tok = [] then none else some tok
  else none

/-- `stdout.match(/request id is ([^ ]+)/)`: first matching position,
left to right. -/
def parseRequestId (out : List Char) : Option (List Char) :=
  out.tails.findSome? requestIdAt

/-- `_submitPrintJobViaCUPS` over an abstract file system (a set of
existing paths): resolve the queue name, write the temp file, run `lp`
(outcome supplied), delete the temp file in the callback before either
resolving or rejecting.  `fs` maps a path to whether it exists;
`unlinkSync` is modelled as removing the path (its exceptions are
swallowed by the source's empty `catch`). -/
def submitPrintJobViaCUPS (fs : List Char → Bool) (queues : List (List Char))
    (tmpdir : List Char) (p : Printer) (fileName : List Char)
    (options : JobOptions) (now : Nat) (outcome : ExecOutcome) :
    (List Char → Bool) × Except (List Char) PrintJobResult :=
  let cupsName := match mapPrinterToCUPS p.name queues with
    | some q => q
    | none => sanitizeQueueName p.name
  let tempFile := tempFilePath tmpdir now fileName
  let fsAfterWrite := fun path => if path = tempFile then true else fs path
  let fsAfterCleanup := fun path => if path = tempFile then false else fsAfterWrite path
  let _cmd := cupsCommand cupsName (jsOrNat options.copies 1) tempFile
  match outcome with
  | .failure errMsg _ stderr =>
      (fsAfterCleanup, .error (str "CUPS error: " ++ jsOrStr (some stderr) errMsg))
  | .success stdout _ =>
      (fsAfterCleanup,
       .ok { jobId := parseRequestId stdout, jobState := some (str "processing")
           , printerId := p.id, printerName := p.name })

/-! ## Shell field splitting (for the command-injection claim) -/

/-- Simplified POSIX field splitting with double quotes only: spaces
outside quotes separate fields, a double quote toggles quoting and is not
part of the field.  Sufficient for commands containing no other shell
metacharacters. -/
def shellTokensAux : List Char → Bool → Option (List Char) → List (List Char)
  | [], _, cur =>
      (match cur with
       | some t => [t.reverse]
       | none => [])
  | c :: cs, inQ, cur =>
      if c = '"' then shellTokensAux cs (!inQ) (some (cur.getD []))
      else if c = ' ' && !inQ then
        match cur with
        | some t => t.reverse :: shellTokensAux cs false none
        | none => shellTokensAux cs false none
      else shellTokensAux cs inQ (some (c :: cur.getD []))

/-- Fields of a shell command under the simplified splitting above. -/
def shellTokens (cmd : List Char) : List (List Char) :=
  shellTokensAux cmd false none

/-- A concrete registry entry used to instantiate theorems: a plain-IPP
printer as `_onPrinterDiscovered` would store it. -/
def samplePrinter : Printer :=
  { id := str "abc123def456"
  , name := str "EPSON L3250 Series"
  , host := str "192.168.1.50"
  , port := 631
  , ptype := str "ipp"
  , rp := str "ipp/print"
  , status := PStatus.idle
  , online := true
  , capabilities := none
  , lastSeen := 1000
  , uri := str "ipp://192.168.1.50:631/ipp/print" }

/-- A concrete mDNS advertisement used to instantiate theorems. -/
def sampleService : MDNSService :=
  { name := str "EPSON L3250 Series"
  , host := some (str "EPSON.local")
  , addresses := [str "192.168.1.50"]
  , port := some 631
  , stype := str "ipp"
  , rp := some (str "ipp/print") }

/-! ## Byte-buffer lemmas -/

theorem u32_zero : u32 0 = z 4 := rfl

theorem z_append (a b : Nat) (l : List Nat) : z a ++ (z b ++ l) = z (a + b) ++ l := by
  rw [← List.append_assoc]
  show z a ++ z b ++ l = _
  rw [z, z, z, ← List.replicate_add]

theorem z_append' (a b : Nat) : z a ++ z b = z (a + b) := by
  rw [z, z, z, ← List.replicate_add]

theorem flatL_append {α : Type} (a b : List (List α)) :
    flatL (a ++ b) = flatL a ++ flatL b := by
  induction a with
  | nil => simp [flatL]
  | cons s ss ih => simp [flatL, ih]

theorem flatL_length (ss : List (List Nat)) : (flatL ss).length = sumLen ss := by
  induction ss with
  | nil => simp [flatL, sumLen]
  | cons s t ih => simp [flatL, sumLen] at ih ⊢; omega

set_option maxRecDepth 40000 in
theorem pwgHeader_eq_flat (w h : Nat) (c : Option Nat) :
    pwgHeader w h c = flatL (pwgSegs w h c) := by
  simp only [pwgHeader, pwgSegs, flatL, List.append_assoc, List.append_nil, u32_zero,
    z_append, z_append', Nat.reduceAdd]

@[simp] theorem z_length (n : Nat) : (z n).length = n := by
  simp [z]

@[simp] theorem u32_length (v : Nat) : (u32 v).length = 4 := rfl

@[simp] theorem pwgMagic_length : pwgMagic.length = 4 := rfl

theorem pwgHeader_length (w h : Nat) (c : Option Nat) :
    (pwgHeader w h c).length = 1796 := by
  rw [pwgHeader_eq_flat, flatL_length]
  simp [sumLen, pwgSegs]

theorem readU32_cons (x : Nat) (t : List Nat) (n : Nat) :
    readU32 (x :: t) (n + 1) = readU32 t n := by
  simp [readU32, List.getD_cons_succ, Nat.add_right_comm]

theorem readU32_skip (a l : List Nat) (n : Nat) :
    readU32 (a ++ l) (a.length + n) = readU32 l n := by
  induction a with
  | nil => simp
  | cons x t ih =>
      have e : (x :: t).length + n = (t.length + n) + 1 := by simp; omega
      rw [e]
      show readU32 (x :: (t ++ l)) ((t.length + n) + 1) = readU32 l n
      rw [readU32_cons]
      exact ih

theorem readU32_u32 (v : Nat) (l : List Nat) (hv : v < 4294967296) :
    readU32 (u32 v ++ l) 0 = v := by
  simp [readU32, u32, List.getD]
  omega

/-- Reading the 32-bit field that follows the segments `A` of a segmented
buffer. -/
theorem readU32_field (A : List (List Nat)) (v : Nat) (B : List (List Nat))
    (n : Nat) (hn : sumLen A = n) (hv : v < 4294967296) :
    readU32 (flatL (A ++ u32 v :: B)) n = v := by
  rw [flatL_append]
  have hl : (flatL A).length = n := by rw [flatL_length, hn]
  have e := readU32_skip (flatL A) (flatL (u32 v :: B)) 0
  rw [Nat.add_zero, hl] at e
  rw [e]
  show readU32 (u32 v ++ flatL B) 0 = v
  exact readU32_u32 v _ hv

theorem getD_z (n j : Nat) : (z n).getD j 0 = 0 := by
  induction n generalizing j with
  | zero => simp [z]
  | succ m ih =>
      cases j with
      | zero => simp [z, List.replicate_succ]
      | succ i =>
          show (z (m + 1)).getD (i + 1) 0 = 0
          rw [z, List.replicate_succ, List.getD_cons_succ]
          exact ih i

theorem getD_skip (a l : List Nat) (n : Nat) :
    (a ++ l).getD (a.length + n) 0 = l.getD n 0 := by
  induction a with
  | nil => simp
  | cons x t ih =>
      have e : (x :: t).length + n = (t.length + n) + 1 := by simp; omega
      rw [e]
      show (x :: (t ++ l)).getD ((t.length + n) + 1) 0 = _
      rw [List.getD_cons_succ]
      exact ih

theorem getD_append_lt (a l : List Nat) (j : Nat) (h : j < a.length) :
    (a ++ l).getD j 0 = a.getD j 0 := by
  induction a generalizing j with
  | nil => simp at h
  | cons x t ih =>
      cases j with
      | zero => rfl
      | succ i =>
          have hi : i < t.length := by simp at h; omega
          show (t ++ l).getD i 0 = t.getD i 0
          exact ih i hi

/-- Bytes inside a zero-run segment of a segmented buffer are zero. -/
theorem getD_zrun (A : List (List Nat)) (k : Nat) (B : List (List Nat))
    (n j : Nat) (hn : sumLen A = n) (hj : j < k) :
    (flatL (A ++ z k :: B)).getD (n + j) 0 = 0 := by
  rw [flatL_append]
  have hl : (flatL A).length = n := by rw [flatL_length, hn]
  have e := getD_skip (flatL A) (flatL (z k :: B)) j
  rw [hl] at e
  rw [e]
  show (z k ++ flatL B).getD j 0 = 0
  rw [getD_append_lt _ _ j (by simpa [z] using hj)]
  exact getD_z k j

/-! ## Raster page data lemmas -/

theorem flat_lines_length (f : Nat → List Nat) (L n : Nat)
    (hf : ∀ x, x < n → (f x).length = L) :
    (flatL ((List.range n).map f)).length = n * L := by
  induction n with
  | zero => simp [flatL]
  | succ m ih =>
      rw [List.range_succ, List.map_append, flatL_append]
      simp only [List.map_cons, List.map_nil, flatL, List.append_nil]
      rw [List.length_append, ih (fun x hx => hf x (by omega)), hf m (by omega),
        Nat.succ_mul]

theorem lines_getD (f : Nat → List Nat) (L n y j : Nat)
    (hf : ∀ x, x < n → (f x).length = L) (hy : y < n) (hj : j < L) :
    (flatL ((List.range n).map f)).getD (y * L + j) 0 = (f y).getD j 0 := by
  induction n with
  | zero => omega
  | succ m ih =>
      rw [List.range_succ, List.map_append, flatL_append]
      simp only [List.map_cons, List.map_nil, flatL, List.append_nil]
      by_cases hc : y < m
      · rw [getD_append_lt]
        · exact ih (fun x hx => hf x (by omega)) hc
        · rw [flat_lines_length f L m (fun x hx => hf x (by omega))]
          calc y * L + j < y * L + L := by omega
            _ = (y + 1) * L := by ring
            _ ≤ m * L := Nat.mul_le_mul_right L (by omega)
      · have hy' : y = m := by omega
        subst hy'
        have hlen : (flatL ((List.range y).map f)).length = y * L :=
          flat_lines_length f L y (fun x hx => hf x (by omega))
        have e := getD_skip (flatL ((List.range y).map f)) (f y) j
        rw [hlen] at e
        exact e

theorem pwgLine_length (rgb : List Nat) (w ch y : Nat) :
    (pwgLine rgb w ch y).length = 1 + 3 * w := by
  simp only [pwgLine, List.length_cons]
  rw [flat_lines_length (pwgPixel rgb w ch y) 3 w (fun x _ => rfl)]
  omega

theorem pwgLine_head (rgb : List Nat) (w ch y : Nat) :
    (pwgLine rgb w ch y).getD 0 0 = 1 := rfl

theorem pwgLine_byte (rgb : List Nat) (w ch y x k : Nat) (hx : x < w) (hk : k < 3) :
    (pwgLine rgb w ch y).getD (1 + (x * 3 + k)) 0
      = rgb.getD (y * w * ch + x * ch + k) 0 := by
  rw [Nat.add_comm 1 (x * 3 + k)]
  show (flatL ((List.range w).map (pwgPixel rgb w ch y))).getD (x * 3 + k) 0 = _
  rw [lines_getD (pwgPixel rgb w ch y) 3 w x k (fun a _ => rfl) hx hk]
  interval_cases k <;> rfl

theorem pwgPageData_length (rgb : List Nat) (w h ch : Nat) :
    (pwgPageData rgb w h ch).length = h * (1 + 3 * w) := by
  rw [pwgPageData, flat_lines_length _ (1 + 3 * w) h (fun y _ => pwgLine_length rgb w ch y)]

theorem pwgPageData_getD (rgb : List Nat) (w h ch y j : Nat) (hy : y < h)
    (hj : j < 1 + 3 * w) :
    (pwgPageData rgb w h ch).getD (y * (1 + 3 * w) + j) 0
      = (pwgLine rgb w ch y).getD j 0 :=
  lines_getD _ (1 + 3 * w) h y j (fun x _ => pwgLine_length rgb w ch x) hy hj

theorem pwgEncode_length (rgb : List Nat) (w h ch : Nat) (c : Option Nat) :
    (pwgEncode rgb w h ch c).length = 1796 + h * (1 + 3 * w) := by
  rw [pwgEncode, List.length_append, pwgHeader_length, pwgPageData_length]

theorem pwgEncode_getD_page (rgb : List Nat) (w h ch : Nat) (c : Option Nat) (n : Nat) :
    (pwgEncode rgb w h ch c).getD (1796 + n) 0 = (pwgPageData rgb w h ch).getD n 0 := by
  have e := getD_skip (pwgHeader w h c) (pwgPageData rgb w h ch) n
  rw [pwgHeader_length] at e
  exact e

theorem readU32_append_lt (a l : List Nat) (n : Nat) (h : n + 4 ≤ a.length) :
    readU32 (a ++ l) n = readU32 a n := by
  unfold readU32
  rw [getD_append_lt _ _ n (by omega), getD_append_lt _ _ (n + 1) (by omega),
    getD_append_lt _ _ (n + 2) (by omega), getD_append_lt _ _ (n + 3) (by omega)]


/-! ## Raster encoder claims (C2, C7) -/


/-- Reading a 32-bit word lying wholly inside a zero-run segment gives 0. -/
theorem readU32_zrun (A : List (List Nat)) (k : Nat) (B : List (List Nat)) (n j : Nat)
    (hn : sumLen A = n) (hjk : j + 4 ≤ k) :
    readU32 (flatL (A ++ z k :: B)) (n + j) = 0 := by
  unfold readU32
  have g0 := getD_zrun A k B n j hn (by omega)
  have g1 := getD_zrun A k B n (j + 1) hn (by omega)
  have g2 := getD_zrun A k B n (j + 2) hn (by omega)
  have g3 := getD_zrun A k B n (j + 3) hn (by omega)
  rw [show n + j + 1 = n + (j + 1) from by omega,
    show n + j + 2 = n + (j + 2) from by omega,
    show n + j + 3 = n + (j + 3) from by omega, g0, g1, g2, g3]

/-- Reading a byte of the segment that follows the segments `A` of a
segmented buffer. -/
theorem getD_field (A : List (List Nat)) (s : List Nat) (B : List (List Nat))
    (n j : Nat) (hn : sumLen A = n) (hj : j < s.length) :
    (flatL (A ++ s :: B)).getD (n + j) 0 = s.getD j 0 := by
  rw [flatL_append]
  have hl : (flatL A).length = n := by rw [flatL_length, hn]
  have e := getD_skip (flatL A) (flatL (s :: B)) j
  rw [hl] at e
  rw [e]
  show (s ++ flatL B).getD j 0 = _
  exact getD_append_lt _ _ j hj

set_option maxRecDepth 40000 in
set_option maxHeartbeats 2000000 in
/-- C2: for a pixel buffer of exactly `width * height * 3` bytes the
encoder's output is the 4-byte sync word, the 1792-byte page header with
the documented field values at their offsets and every unspecified byte
zero, then `height` scanline records of a repeat-count byte 1 followed by
the row's `3 * width` source bytes; the total length is
`4 + 1792 + height * (1 + 3 * width)`. -/
theorem C2_raster_layout (rgb : List Nat) (w h : Nat) (c : Option Nat)
    (_hbuf : rgb.length = w * h * 3)
    (hw : w * 3 < 4294967296) (hh : h < 4294967296)
    (hc : jsOrNat c 1 < 4294967296) :
    (pwgEncode rgb w h 3 c).length = 4 + 1792 + h * (1 + 3 * w) ∧
    ((pwgEncode rgb w h 3 c).getD 0 0 = 82 ∧ (pwgEncode rgb w h 3 c).getD 1 0 = 97 ∧
     (pwgEncode rgb w h 3 c).getD 2 0 = 83 ∧ (pwgEncode rgb w h 3 c).getD 3 0 = 50) ∧
    readU32 (pwgEncode rgb w h 3 c) 216 = 300 ∧
    readU32 (pwgEncode rgb w h 3 c) 220 = 300 ∧
    readU32 (pwgEncode rgb w h 3 c) 280 = jsOrNat c 1 ∧
    readU32 (pwgEncode rgb w h 3 c) 292 = jsRound (w * 72) 300 ∧
    readU32 (pwgEncode rgb w h 3 c) 296 = jsRound (h * 72) 300 ∧
    readU32 (pwgEncode rgb w h 3 c) 320 = w ∧
    readU32 (pwgEncode rgb w h 3 c) 324 = h ∧
    readU32 (pwgEncode rgb w h 3 c) 332 = 8 ∧
    readU32 (pwgEncode rgb w h 3 c) 336 = 24 ∧
    readU32 (pwgEncode rgb w h 3 c) 340 = w * 3 ∧
    readU32 (pwgEncode rgb w h 3 c) 344 = 0 ∧
    readU32 (pwgEncode rgb w h 3 c) 348 = 19 ∧
    readU32 (pwgEncode rgb w h 3 c) 368 = 3 ∧
    readU32 (pwgEncode rgb w h 3 c) 400 = 1 ∧
    readU32 (pwgEncode rgb w h 3 c) 404 = 1 ∧
    readU32 (pwgEncode rgb w h 3 c) 408 = 1 ∧
    readU32 (pwgEncode rgb w h 3 c) 412 = 0 ∧
    readU32 (pwgEncode rgb w h 3 c) 416 = 0 ∧
    readU32 (pwgEncode rgb w h 3 c) 420 = w ∧
    readU32 (pwgEncode rgb w h 3 c) 424 = h ∧
    (∀ j, j < 212 → (pwgEncode rgb w h 3 c).getD (4 + j) 0 = 0) ∧
    (∀ j, j < 56 → (pwgEncode rgb w h 3 c).getD (224 + j) 0 = 0) ∧
    (∀ j, j < 8 → (pwgEncode rgb w h 3 c).getD (284 + j) 0 = 0) ∧
    (∀ j, j < 20 → (pwgEncode rgb w h 3 c).getD (300 + j) 0 = 0) ∧
    (∀ j, j < 4 → (pwgEncode rgb w h 3 c).getD (328 + j) 0 = 0) ∧
    (∀ j, j < 4 → (pwgEncode rgb w h 3 c).getD (344 + j) 0 = 0) ∧
    (∀ j, j < 16 → (pwgEncode rgb w h 3 c).getD (352 + j) 0 = 0) ∧
    (∀ j, j < 28 → (pwgEncode rgb w h 3 c).getD (372 + j) 0 = 0) ∧
    (∀ j, j < 8 → (pwgEncode rgb w h 3 c).getD (412 + j) 0 = 0) ∧
    (∀ j, j < 1368 → (pwgEncode rgb w h 3 c).getD (428 + j) 0 = 0) ∧
    (∀ y, y < h →
      (pwgEncode rgb w h 3 c).getD (1796 + y * (1 + 3 * w)) 0 = 1 ∧
      ∀ x, x < w → ∀ k, k < 3 →
        (pwgEncode rgb w h 3 c).getD (1796 + (y * (1 + 3 * w) + (1 + (x * 3 + k)))) 0
          = rgb.getD (y * w * 3 + x * 3 + k) 0) := by
  have hw' : w < 4294967296 := by omega
  have hpw : jsRound (w * 72) 300 < 4294967296 := by unfold jsRound; omega
  have hph : jsRound (h * 72) 300 < 4294967296 := by unfold jsRound; omega
  have hlen : (pwgEncode rgb w h 3 c).length = 4 + 1792 + h * (1 + 3 * w) := by
    show (pwgEncode rgb w h 3 c).length = 1796 + h * (1 + 3 * w)
    exact pwgEncode_length rgb w h 3 c
  have hmagic : (pwgEncode rgb w h 3 c).getD 0 0 = 82 ∧
      (pwgEncode rgb w h 3 c).getD 1 0 = 97 ∧
      (pwgEncode rgb w h 3 c).getD 2 0 = 83 ∧
      (pwgEncode rgb w h 3 c).getD 3 0 = 50 := by
    refine ⟨?_, ?_, ?_, ?_⟩
    · rw [pwgEncode, getD_append_lt _ _ _ (by rw [pwgHeader_length]; omega), pwgHeader_eq_flat]
      have e := getD_field [] pwgMagic
        [z 212, u32 300, u32 300, z 56, u32 (jsOrNat c 1), z 8, u32 (jsRound (w * 72) 300), u32 (jsRound (h * 72) 300), z 20, u32 w, u32 h, z 4, u32 8, u32 24, u32 (w * 3), z 4, u32 19, z 16, u32 3, z 28, u32 1, u32 1, u32 1, z 8, u32 w, u32 h, z 1368] 0 0 rfl (by norm_num)
      rw [Nat.zero_add] at e
      exact e
    · rw [pwgEncode, getD_append_lt _ _ _ (by rw [pwgHeader_length]; omega), pwgHeader_eq_flat]
      have e := getD_field [] pwgMagic
        [z 212, u32 300, u32 300, z 56, u32 (jsOrNat c 1), z 8, u32 (jsRound (w * 72) 300), u32 (jsRound (h * 72) 300), z 20, u32 w, u32 h, z 4, u32 8, u32 24, u32 (w * 3), z 4, u32 19, z 16, u32 3, z 28, u32 1, u32 1, u32 1, z 8, u32 w, u32 h, z 1368] 0 1 rfl (by norm_num)
      rw [Nat.zero_add] at e
      exact e
    · rw [pwgEncode, getD_append_lt _ _ _ (by rw [pwgHeader_length]; omega), pwgHeader_eq_flat]
      have e := getD_field [] pwgMagic
        [z 212, u32 300, u32 300, z 56, u32 (jsOrNat c 1), z 8, u32 (jsRound (w * 72) 300), u32 (jsRound (h * 72) 300), z 20, u32 w, u32 h, z 4, u32 8, u32 24, u32 (w * 3), z 4, u32 19, z 16, u32 3, z 28, u32 1, u32 1, u32 1, z 8, u32 w, u32 h, z 1368] 0 2 rfl (by norm_num)
      rw [Nat.zero_add] at e
      exact e
    · rw [pwgEncode, getD_append_lt _ _ _ (by rw [pwgHeader_length]; omega), pwgHeader_eq_flat]
      have e := getD_field [] pwgMagic
        [z 212, u32 300, u32 300, z 56, u32 (jsOrNat c 1), z 8, u32 (jsRound (w * 72) 300), u32 (jsRound (h * 72) 300), z 20, u32 w, u32 h, z 4, u32 8, u32 24, u32 (w * 3), z 4, u32 19, z 16, u32 3, z 28, u32 1, u32 1, u32 1, z 8, u32 w, u32 h, z 1368] 0 3 rfl (by norm_num)
      rw [Nat.zero_add] at e
      exact e
  have f216 : readU32 (pwgEncode rgb w h 3 c) 216 = 300 := by
    rw [pwgEncode, readU32_append_lt _ _ 216 (by rw [pwgHeader_length]; omega), pwgHeader_eq_flat]
    exact readU32_field [pwgMagic, z 212] (300)
      [u32 300, z 56, u32 (jsOrNat c 1), z 8, u32 (jsRound (w * 72) 300), u32 (jsRound (h * 72) 300), z 20, u32 w, u32 h, z 4, u32 8, u32 24, u32 (w * 3), z 4, u32 19, z 16, u32 3, z 28, u32 1, u32 1, u32 1, z 8, u32 w, u32 h, z 1368] 216 (by simp [sumLen]) (by norm_num)
  have f220 : readU32 (pwgEncode rgb w h 3 c) 220 = 300 := by
    rw [pwgEncode, readU32_append_lt _ _ 220 (by rw [pwgHeader_length]; omega), pwgHeader_eq_flat]
    exact readU32_field [pwgMagic, z 212, u32 300] (300)
      [z 56, u32 (jsOrNat c 1), z 8, u32 (jsRound (w * 72) 300), u32 (jsRound (h * 72) 300), z 20, u32 w, u32 h, z 4, u32 8, u32 24, u32 (w * 3), z 4, u32 19, z 16, u32 3, z 28, u32 1, u32 1, u32 1, z 8, u32 w, u32 h, z 1368] 220 (by simp [sumLen]) (by norm_num)
  have f280 : readU32 (pwgEncode rgb w h 3 c) 280 = jsOrNat c 1 := by
    rw [pwgEncode, readU32_append_lt _ _ 280 (by rw [pwgHeader_length]; omega), pwgHeader_eq_flat]
    exact readU32_field [pwgMagic, z 212, u32 300, u32 300, z 56] (jsOrNat c 1)
      [z 8, u32 (jsRound (w * 72) 300), u32 (jsRound (h * 72) 300), z 20, u32 w, u32 h, z 4, u32 8, u32 24, u32 (w * 3), z 4, u32 19, z 16, u32 3, z 28, u32 1, u32 1, u32 1, z 8, u32 w, u32 h, z 1368] 280 (by simp [sumLen]) hc
  have f292 : readU32 (pwgEncode rgb w h 3 c) 292 = jsRound (w * 72) 300 := by
    rw [pwgEncode, readU32_append_lt _ _ 292 (by rw [pwgHeader_length]; omega), pwgHeader_eq_flat]
    exact readU32_field [pwgMagic, z 212, u32 300, u32 300, z 56, u32 (jsOrNat c 1), z 8] (jsRound (w * 72) 300)
      [u32 (jsRound (h * 72) 300), z 20, u32 w, u32 h, z 4, u32 8, u32 24, u32 (w * 3), z 4, u32 19, z 16, u32 3, z 28, u32 1, u32 1, u32 1, z 8, u32 w, u32 h, z 1368] 292 (by simp [sumLen]) hpw
  have f296 : readU32 (pwgEncode rgb w h 3 c) 296 = jsRound (h * 72) 300 := by
    rw [pwgEncode, readU32_append_lt _ _ 296 (by rw [pwgHeader_length]; omega), pwgHeader_eq_flat]
    exact readU32_field [pwgMagic, z 212, u32 300, u32 300, z 56, u32 (jsOrNat c 1), z 8, u32 (jsRound (w * 72) 300)] (jsRound (h * 72) 300)
      [z 20, u32 w, u32 h, z 4, u32 8, u32 24, u32 (w * 3), z 4, u32 19, z 16, u32 3, z 28, u32 1, u32 1, u32 1, z 8, u32 w, u32 h, z 1368] 296 (by simp [sumLen]) hph
  have f320 : readU32 (pwgEncode rgb w h 3 c) 320 = w := by
    rw [pwgEncode, readU32_append_lt _ _ 320 (by rw [pwgHeader_length]; omega), pwgHeader_eq_flat]
    exact readU32_field [pwgMagic, z 212, u32 300, u32 300, z 56, u32 (jsOrNat c 1), z 8, u32 (jsRound (w * 72) 300), u32 (jsRound (h * 72) 300), z 20] (w)
      [u32 h, z 4, u32 8, u32 24, u32 (w * 3), z 4, u32 19, z 16, u32 3, z 28, u32 1, u32 1, u32 1, z 8, u32 w, u32 h, z 1368] 320 (by simp [sumLen]) hw'
  have f324 : readU32 (pwgEncode rgb w h 3 c) 324 = h := by
    rw [pwgEncode, readU32_append_lt _ _ 324 (by rw [pwgHeader_length]; omega), pwgHeader_eq_flat]
    exact readU32_field [pwgMagic, z 212, u32 300, u32 300, z 56, u32 (jsOrNat c 1), z 8, u32 (jsRound (w * 72) 300), u32 (jsRound (h * 72) 300), z 20, u32 w] (h)
      [z 4, u32 8, u32 24, u32 (w * 3), z 4, u32 19, z 16, u32 3, z 28, u32 1, u32 1, u32 1, z 8, u32 w, u32 h, z 1368] 324 (by simp [sumLen]) hh
  have f332 : readU32 (pwgEncode rgb w h 3 c) 332 = 8 := by
    rw [pwgEncode, readU32_append_lt _ _ 332 (by rw [pwgHeader_length]; omega), pwgHeader_eq_flat]
    exact readU32_field [pwgMagic, z 212, u32 300, u32 300, z 56, u32 (jsOrNat c 1), z 8, u32 (jsRound (w * 72) 300), u32 (jsRound (h * 72) 300), z 20, u32 w, u32 h, z 4] (8)
      [u32 24, u32 (w * 3), z 4, u32 19, z 16, u32 3, z 28, u32 1, u32 1, u32 1, z 8, u32 w, u32 h, z 1368] 332 (by simp [sumLen]) (by norm_num)
  have f336 : readU32 (pwgEncode rgb w h 3 c) 336 = 24 := by
    rw [pwgEncode, readU32_append_lt _ _ 336 (by rw [pwgHeader_length]; omega), pwgHeader_eq_flat]
    exact readU32_field [pwgMagic, z 212, u32 300, u32 300, z 56, u32 (jsOrNat c 1), z 8, u32 (jsRound (w * 72) 300), u32 (jsRound (h * 72) 300), z 20, u32 w, u32 h, z 4, u32 8] (24)
      [u32 (w * 3), z 4, u32 19, z 16, u32 3, z 28, u32 1, u32 1, u32 1, z 8, u32 w, u32 h, z 1368] 336 (by simp [sumLen]) (by norm_num)
  have f340 : readU32 (pwgEncode rgb w h 3 c) 340 = w * 3 := by
    rw [pwgEncode, readU32_append_lt _ _ 340 (by rw [pwgHeader_length]; omega), pwgHeader_eq_flat]
    exact readU32_field [pwgMagic, z 212, u32 300, u32 300, z 56, u32 (jsOrNat c 1), z 8, u32 (jsRound (w * 72) 300), u32 (jsRound (h * 72) 300), z 20, u32 w, u32 h, z 4, u32 8, u32 24] (w * 3)
      [z 4, u32 19, z 16, u32 3, z 28, u32 1, u32 1, u32 1, z 8, u32 w, u32 h, z 1368] 340 (by simp [sumLen]) hw
  have f348 : readU32 (pwgEncode rgb w h 3 c) 348 = 19 := by
    rw [pwgEncode, readU32_append_lt _ _ 348 (by rw [pwgHeader_length]; omega), pwgHeader_eq_flat]
    exact readU32_field [pwgMagic, z 212, u32 300, u32 300, z 56, u32 (jsOrNat c 1), z 8, u32 (jsRound (w * 72) 300), u32 (jsRound (h * 72) 300), z 20, u32 w, u32 h, z 4, u32 8, u32 24, u32 (w * 3), z 4] (19)
      [z 16, u32 3, z 28, u32 1, u32 1, u32 1, z 8, u32 w, u32 h, z 1368] 348 (by simp [sumLen]) (by norm_num)
  have f368 : readU32 (pwgEncode rgb w h 3 c) 368 = 3 := by
    rw [pwgEncode, readU32_append_lt _ _ 368 (by rw [pwgHeader_length]; omega), pwgHeader_eq_flat]
    exact readU32_field [pwgMagic, z 212, u32 300, u32 300, z 56, u32 (jsOrNat c 1), z 8, u32 (jsRound (w * 72) 300), u32 (jsRound (h * 72) 300), z 20, u32 w, u32 h, z 4, u32 8, u32 24, u32 (w * 3), z 4, u32 19, z 16] (3)
      [z 28, u32 1, u32 1, u32 1, z 8, u32 w, u32 h, z 1368] 368 (by simp [sumLen]) (by norm_num)
  have f400 : readU32 (pwgEncode rgb w h 3 c) 400 = 1 := by
    rw [pwgEncode, readU32_append_lt _ _ 400 (by rw [pwgHeader_length]; omega), pwgHeader_eq_flat]
    exact readU32_field [pwgMagic, z 212, u32 300, u32 300, z 56, u32 (jsOrNat c 1), z 8, u32 (jsRound (w * 72) 300), u32 (jsRound (h * 72) 300), z 20, u32 w, u32 h, z 4, u32 8, u32 24, u32 (w * 3), z 4, u32 19, z 16, u32 3, z 28] (1)
      [u32 1, u32 1, z 8, u32 w, u32 h, z 1368] 400 (by simp [sumLen]) (by norm_num)
  have f404 : readU32 (pwgEncode rgb w h 3 c) 404 = 1 := by
    rw [pwgEncode, readU32_append_lt _ _ 404 (by rw [pwgHeader_length]; omega), pwgHeader_eq_flat]
    exact readU32_field [pwgMagic, z 212, u32 300, u32 300, z 56, u32 (jsOrNat c 1), z 8, u32 (jsRound (w * 72) 300), u32 (jsRound (h * 72) 300), z 20, u32 w, u32 h, z 4, u32 8, u32 24, u32 (w * 3), z 4, u32 19, z 16, u32 3, z 28, u32 1] (1)
      [u32 1, z 8, u32 w, u32 h, z 1368] 404 (by simp [sumLen]) (by norm_num)
  have f408 : readU32 (pwgEncode rgb w h 3 c) 408 = 1 := by
    rw [pwgEncode, readU32_append_lt _ _ 408 (by rw [pwgHeader_length]; omega), pwgHeader_eq_flat]
    exact readU32_field [pwgMagic, z 212, u32 300, u32 300, z 56, u32 (jsOrNat c 1), z 8, u32 (jsRound (w * 72) 300), u32 (jsRound (h * 72) 300), z 20, u32 w, u32 h, z 4, u32 8, u32 24, u32 (w * 3), z 4, u32 19, z 16, u32 3, z 28, u32 1, u32 1] (1)
      [z 8, u32 w, u32 h, z 1368] 408 (by simp [sumLen]) (by norm_num)
  have f420 : readU32 (pwgEncode rgb w h 3 c) 420 = w := by
    rw [pwgEncode, readU32_append_lt _ _ 420 (by rw [pwgHeader_length]; omega), pwgHeader_eq_flat]
    exact readU32_field [pwgMagic, z 212, u32 300, u32 300, z 56, u32 (jsOrNat c 1), z 8, u32 (jsRound (w * 72) 300), u32 (jsRound (h * 72) 300), z 20, u32 w, u32 h, z 4, u32 8, u32 24, u32 (w * 3), z 4, u32 19, z 16, u32 3, z 28, u32 1, u32 1, u32 1, z 8] (w)
      [u32 h, z 1368] 420 (by simp [sumLen]) hw'
  have f424 : readU32 (pwgEncode rgb w h 3 c) 424 = h := by
    rw [pwgEncode, readU32_append_lt _ _ 424 (by rw [pwgHeader_length]; omega), pwgHeader_eq_flat]
    exact readU32_field [pwgMagic, z 212, u32 300, u32 300, z 56, u32 (jsOrNat c 1), z 8, u32 (jsRound (w * 72) 300), u32 (jsRound (h * 72) 300), z 20, u32 w, u32 h, z 4, u32 8, u32 24, u32 (w * 3), z 4, u32 19, z 16, u32 3, z 28, u32 1, u32 1, u32 1, z 8, u32 w] (h)
      [z 1368] 424 (by simp [sumLen]) hh
  have zr4 : ∀ j, j < 212 → (pwgEncode rgb w h 3 c).getD (4 + j) 0 = 0 := by
    intro j hj
    rw [pwgEncode, getD_append_lt _ _ _ (by rw [pwgHeader_length]; omega), pwgHeader_eq_flat]
    exact getD_zrun [pwgMagic] 212
      [u32 300, u32 300, z 56, u32 (jsOrNat c 1), z 8, u32 (jsRound (w * 72) 300), u32 (jsRound (h * 72) 300), z 20, u32 w, u32 h, z 4, u32 8, u32 24, u32 (w * 3), z 4, u32 19, z 16, u32 3, z 28, u32 1, u32 1, u32 1, z 8, u32 w, u32 h, z 1368] 4 j (by simp [sumLen]) hj
  have zr224 : ∀ j, j < 56 → (pwgEncode rgb w h 3 c).getD (224 + j) 0 = 0 := by
    intro j hj
    rw [pwgEncode, getD_append_lt _ _ _ (by rw [pwgHeader_length]; omega), pwgHeader_eq_flat]
    exact getD_zrun [pwgMagic, z 212, u32 300, u32 300] 56
      [u32 (jsOrNat c 1), z 8, u32 (jsRound (w * 72) 300), u32 (jsRound (h * 72) 300), z 20, u32 w, u32 h, z 4, u32 8, u32 24, u32 (w * 3), z 4, u32 19, z 16, u32 3, z 28, u32 1, u32 1, u32 1, z 8, u32 w, u32 h, z 1368] 224 j (by simp [sumLen]) hj
  have zr284 : ∀ j, j < 8 → (pwgEncode rgb w h 3 c).getD (284 + j) 0 = 0 := by
    intro j hj
    rw [pwgEncode, getD_append_lt _ _ _ (by rw [pwgHeader_length]; omega), pwgHeader_eq_flat]
    exact getD_zrun [pwgMagic, z 212, u32 300, u32 300, z 56, u32 (jsOrNat c 1)] 8
      [u32 (jsRound (w * 72) 300), u32 (jsRound (h * 72) 300), z 20, u32 w, u32 h, z 4, u32 8, u32 24, u32 (w * 3), z 4, u32 19, z 16, u32 3, z 28, u32 1, u32 1, u32 1, z 8, u32 w, u32 h, z 1368] 284 j (by simp [sumLen]) hj
  have zr300 : ∀ j, j < 20 → (pwgEncode rgb w h 3 c).getD (300 + j) 0 = 0 := by
    intro j hj
    rw [pwgEncode, getD_append_lt _ _ _ (by rw [pwgHeader_length]; omega), pwgHeader_eq_flat]
    exact getD_zrun [pwgMagic, z 212, u32 300, u32 300, z 56, u32 (jsOrNat c 1), z 8, u32 (jsRound (w * 72) 300), u32 (jsRound (h * 72) 300)] 20
      [u32 w, u32 h, z 4, u32 8, u32 24, u32 (w * 3), z 4, u32 19, z 16, u32 3, z 28, u32 1, u32 1, u32 1, z 8, u32 w, u32 h, z 1368] 300 j (by simp [sumLen]) hj
  have zr328 : ∀ j, j < 4 → (pwgEncode rgb w h 3 c).getD (328 + j) 0 = 0 := by
    intro j hj
    rw [pwgEncode, getD_append_lt _ _ _ (by rw [pwgHeader_length]; omega), pwgHeader_eq_flat]
    exact getD_zrun [pwgMagic, z 212, u32 300, u32 300, z 56, u32 (jsOrNat c 1), z 8, u32 (jsRound (w * 72) 300), u32 (jsRound (h * 72) 300), z 20, u32 w, u32 h] 4
      [u32 8, u32 24, u32 (w * 3), z 4, u32 19, z 16, u32 3, z 28, u32 1, u32 1, u32 1, z 8, u32 w, u32 h, z 1368] 328 j (by simp [sumLen]) hj
  have zr344 : ∀ j, j < 4 → (pwgEncode rgb w h 3 c).getD (344 + j) 0 = 0 := by
    intro j hj
    rw [pwgEncode, getD_append_lt _ _ _ (by rw [pwgHeader_length]; omega), pwgHeader_eq_flat]
    exact getD_zrun [pwgMagic, z 212, u32 300, u32 300, z 56, u32 (jsOrNat c 1), z 8, u32 (jsRound (w * 72) 300), u32 (jsRound (h * 72) 300), z 20, u32 w, u32 h, z 4, u32 8, u32 24, u32 (w * 3)] 4
      [u32 19, z 16, u32 3, z 28, u32 1, u32 1, u32 1, z 8, u32 w, u32 h, z 1368] 344 j (by simp [sumLen]) hj
  have zr352 : ∀ j, j < 16 → (pwgEncode rgb w h 3 c).getD (352 + j) 0 = 0 := by
    intro j hj
    rw [pwgEncode, getD_append_lt _ _ _ (by rw [pwgHeader_length]; omega), pwgHeader_eq_flat]
    exact getD_zrun [pwgMagic, z 212, u32 300, u32 300, z 56, u32 (jsOrNat c 1), z 8, u32 (jsRound (w * 72) 300), u32 (jsRound (h * 72) 300), z 20, u32 w, u32 h, z 4, u32 8, u32 24, u32 (w * 3), z 4, u32 19] 16
      [u32 3, z 28, u32 1, u32 1, u32 1, z 8, u32 w, u32 h, z 1368] 352 j (by simp [sumLen]) hj
  have zr372 : ∀ j, j < 28 → (pwgEncode rgb w h 3 c).getD (372 + j) 0 = 0 := by
    intro j hj
    rw [pwgEncode, getD_append_lt _ _ _ (by rw [pwgHeader_length]; omega), pwgHeader_eq_flat]
    exact getD_zrun [pwgMagic, z 212, u32 300, u32 300, z 56, u32 (jsOrNat c 1), z 8, u32 (jsRound (w * 72) 300), u32 (jsRound (h * 72) 300), z 20, u32 w, u32 h, z 4, u32 8, u32 24, u32 (w * 3), z 4, u32 19, z 16, u32 3] 28
      [u32 1, u32 1, u32 1, z 8, u32 w, u32 h, z 1368] 372 j (by simp [sumLen]) hj
  have zr412 : ∀ j, j < 8 → (pwgEncode rgb w h 3 c).getD (412 + j) 0 = 0 := by
    intro j hj
    rw [pwgEncode, getD_append_lt _ _ _ (by rw [pwgHeader_length]; omega), pwgHeader_eq_flat]
    exact getD_zrun [pwgMagic, z 212, u32 300, u32 300, z 56, u32 (jsOrNat c 1), z 8, u32 (jsRound (w * 72) 300), u32 (jsRound (h * 72) 300), z 20, u32 w, u32 h, z 4, u32 8, u32 24, u32 (w * 3), z 4, u32 19, z 16, u32 3, z 28, u32 1, u32 1, u32 1] 8
      [u32 w, u32 h, z 1368] 412 j (by simp [sumLen]) hj
  have zr428 : ∀ j, j < 1368 → (pwgEncode rgb w h 3 c).getD (428 + j) 0 = 0 := by
    intro j hj
    rw [pwgEncode, getD_append_lt _ _ _ (by rw [pwgHeader_length]; omega), pwgHeader_eq_flat]
    exact getD_zrun [pwgMagic, z 212, u32 300, u32 300, z 56, u32 (jsOrNat c 1), z 8, u32 (jsRound (w * 72) 300), u32 (jsRound (h * 72) 300), z 20, u32 w, u32 h, z 4, u32 8, u32 24, u32 (w * 3), z 4, u32 19, z 16, u32 3, z 28, u32 1, u32 1, u32 1, z 8, u32 w, u32 h] 1368
      [] 428 j (by simp [sumLen]) hj
  have f344 : readU32 (pwgEncode rgb w h 3 c) 344 = 0 := by
    rw [pwgEncode, readU32_append_lt _ _ 344 (by rw [pwgHeader_length]; omega), pwgHeader_eq_flat]
    have e := readU32_zrun [pwgMagic, z 212, u32 300, u32 300, z 56, u32 (jsOrNat c 1), z 8, u32 (jsRound (w * 72) 300), u32 (jsRound (h * 72) 300), z 20, u32 w, u32 h, z 4, u32 8, u32 24, u32 (w * 3)] 4
      [u32 19, z 16, u32 3, z 28, u32 1, u32 1, u32 1, z 8, u32 w, u32 h, z 1368] 344 0 (by simp [sumLen]) (by omega)
    rw [Nat.add_zero] at e
    exact e
  have f412 : readU32 (pwgEncode rgb w h 3 c) 412 = 0 := by
    rw [pwgEncode, readU32_append_lt _ _ 412 (by rw [pwgHeader_length]; omega), pwgHeader_eq_flat]
    have e := readU32_zrun [pwgMagic, z 212, u32 300, u32 300, z 56, u32 (jsOrNat c 1), z 8, u32 (jsRound (w * 72) 300), u32 (jsRound (h * 72) 300), z 20, u32 w, u32 h, z 4, u32 8, u32 24, u32 (w * 3), z 4, u32 19, z 16, u32 3, z 28, u32 1, u32 1, u32 1] 8
      [u32 w, u32 h, z 1368] 412 0 (by simp [sumLen]) (by omega)
    rw [Nat.add_zero] at e
    exact e
  have f416 : readU32 (pwgEncode rgb w h 3 c) 416 = 0 := by
    rw [pwgEncode, readU32_append_lt _ _ 416 (by rw [pwgHeader_length]; omega), pwgHeader_eq_flat]
    have e := readU32_zrun [pwgMagic, z 212, u32 300, u32 300, z 56, u32 (jsOrNat c 1), z 8, u32 (jsRound (w * 72) 300), u32 (jsRound (h * 72) 300), z 20, u32 w, u32 h, z 4, u32 8, u32 24, u32 (w * 3), z 4, u32 19, z 16, u32 3, z 28, u32 1, u32 1, u32 1] 8
      [u32 w, u32 h, z 1368] 412 4 (by simp [sumLen]) (by omega)
    rw [show (412 : Nat) + 4 = 416 from rfl] at e
    exact e
  have scan : ∀ y, y < h →
      (pwgEncode rgb w h 3 c).getD (1796 + y * (1 + 3 * w)) 0 = 1 ∧
      ∀ x, x < w → ∀ k, k < 3 →
        (pwgEncode rgb w h 3 c).getD (1796 + (y * (1 + 3 * w) + (1 + (x * 3 + k)))) 0
          = rgb.getD (y * w * 3 + x * 3 + k) 0 := by
    intro y hy
    constructor
    · have e := pwgEncode_getD_page rgb w h 3 c (y * (1 + 3 * w))
      rw [e]
      have e2 := pwgPageData_getD rgb w h 3 y 0 hy (by omega)
      rw [Nat.add_zero] at e2
      rw [e2]
      exact pwgLine_head rgb w 3 y
    · intro x hx k hk
      have e := pwgEncode_getD_page rgb w h 3 c (y * (1 + 3 * w) + (1 + (x * 3 + k)))
      rw [e]
      rw [pwgPageData_getD rgb w h 3 y (1 + (x * 3 + k)) hy (by omega)]
      exact pwgLine_byte rgb w 3 y x k hx hk
  exact ⟨hlen, hmagic, f216, f220, f280, f292, f296, f320, f324, f332, f336, f340,
    f344, f348, f368, f400, f404, f408, f412, f416, f420, f424,
    zr4, zr224, zr284, zr300, zr328, zr344, zr352, zr372, zr412, zr428, scan⟩

/-- Witness for C2 at the spec's 2-by-2 all-white buffer: the hypotheses
hold and the output length is 1810 with width/height/bytes-per-line
reading back 2, 2, 6. -/
theorem C2_raster_layout_witness :
    (List.replicate 12 255 : List Nat).length = 2 * 2 * 3 ∧
    2 * 3 < 4294967296 ∧ (2 : Nat) < 4294967296 ∧
    jsOrNat (some 1) 1 < 4294967296 ∧
    (pwgEncode (List.replicate 12 255) 2 2 3 (some 1)).length = 4 + 1792 + 2 * (1 + 3 * 2) ∧
    readU32 (pwgEncode (List.replicate 12 255) 2 2 3 (some 1)) 320 = 2 ∧
    readU32 (pwgEncode (List.replicate 12 255) 2 2 3 (some 1)) 324 = 2 ∧
    readU32 (pwgEncode (List.replicate 12 255) 2 2 3 (some 1)) 340 = 6 :=
  have hmain := C2_raster_layout (List.replicate 12 255) 2 2 (some 1)
    (by decide) (by decide) (by decide) (by decide)
  ⟨by decide, by decide, by decide, by decide, hmain.1,
   hmain.2.2.2.2.2.2.2.1, hmain.2.2.2.2.2.2.2.2.1, hmain.2.2.2.2.2.2.2.2.2.2.2.1⟩

/-- C7 counterexample: the empty buffer has the wrong length for a 1-by-1
3-channel page, yet `_buildPageData` raises nothing and produces the
well-formed scanline `[1, 0, 0, 0]`, and the full encoder output has the
well-formed length — the structurally invalid input is silently degraded,
not rejected. -/
theorem C7_counterexample :
    ([] : List Nat).length ≠ 1 * 1 * 3 ∧
    pwgPageData [] 1 1 3 = [1, 0, 0, 0] ∧
    (pwgEncode [] 1 1 3 none).length = 4 + 1792 + 1 * (1 + 3 * 1) := by
  refine ⟨by decide, by decide, ?_⟩
  show (pwgEncode [] 1 1 3 none).length = 1796 + 1 * (1 + 3 * 1)
  exact pwgEncode_length [] 1 1 3 none

/-- C7 (amended): the Raster Encoder performs no structural validation: a
pixel buffer whose length differs from `width * height * channels` is not
rejected — for every buffer the output is well-formed with length
`4 + 1792 + height * (1 + 3 * width)`, every scanline starts with repeat
count 1, and every payload byte equals the corresponding source byte,
out-of-range reads contributing 0. -/
theorem C7_no_validation (rgb : List Nat) (w h ch : Nat) (c : Option Nat) :
    (pwgEncode rgb w h ch c).length = 4 + 1792 + h * (1 + 3 * w) ∧
    (∀ y, y < h →
      (pwgEncode rgb w h ch c).getD (1796 + y * (1 + 3 * w)) 0 = 1 ∧
      ∀ x, x < w → ∀ k, k < 3 →
        (pwgEncode rgb w h ch c).getD (1796 + (y * (1 + 3 * w) + (1 + (x * 3 + k)))) 0
          = rgb.getD (y * w * ch + x * ch + k) 0) := by
  constructor
  · show (pwgEncode rgb w h ch c).length = 1796 + h * (1 + 3 * w)
    exact pwgEncode_length rgb w h ch c
  · intro y hy
    constructor
    · have e := pwgEncode_getD_page rgb w h ch c (y * (1 + 3 * w))
      rw [e]
      have e2 := pwgPageData_getD rgb w h ch y 0 hy (by omega)
      rw [Nat.add_zero] at e2
      rw [e2]
      exact pwgLine_head rgb w ch y
    · intro x hx k hk
      have e := pwgEncode_getD_page rgb w h ch c (y * (1 + 3 * w) + (1 + (x * 3 + k)))
      rw [e]
      rw [pwgPageData_getD rgb w h ch y (1 + (x * 3 + k)) hy (by omega)]
      exact pwgLine_byte rgb w ch y x k hx hk

/-- Witness for the amended C7 at a one-pixel page with a one-byte (too
short) buffer. -/
theorem C7_no_validation_witness :
    (pwgEncode [7] 1 1 3 none).length = 4 + 1792 + 1 * (1 + 3 * 1) ∧
    (pwgEncode [7] 1 1 3 none).getD (1796 + 0 * (1 + 3 * 1)) 0 = 1 ∧
    (pwgEncode [7] 1 1 3 none).getD (1796 + (0 * (1 + 3 * 1) + (1 + (0 * 3 + 0)))) 0
      = ([7] : List Nat).getD (0 * 1 * 3 + 0 * 3 + 0) 0 :=
  have hm := C7_no_validation [7] 1 1 3 none
  ⟨hm.1, (hm.2 0 (by decide)).1, (hm.2 0 (by decide)).2 0 (by decide) 0 (by decide)⟩


/-! ## Dispatcher, queue matcher and quirk claims (C1, C3, C4) -/


/-- C1: an accepted submission (printer found, online) selects the
transport by the source's priority: on a platform with a local spooler
(`darwin`/`linux`) always the Spooler Transport — so the Raster Encoder is
never invoked there; otherwise an image mime type other than
`image/pwg-raster` is re-encoded and sent via the Protocol Transport; any
other mime type goes unmodified via the Protocol Transport. -/
theorem C1_dispatch_priority (reg : List Printer) (platform printerId : List Char)
    (options : JobOptions) (p : Printer)
    (hfind : reg.find? (fun q => q.id == printerId) = some p)
    (honline : p.online = true) :
    submitPrintJob reg platform printerId options
      = .ok (p, selectPrintRoute platform options) ∧
    ((platform = str "darwin" ∨ platform = str "linux") →
      selectPrintRoute platform options = .spooler) ∧
    (¬(platform = str "darwin" ∨ platform = str "linux") →
      (startsWithL (str "image/") (toLowerL (options.mimeType.getD [])) = true →
       toLowerL (options.mimeType.getD []) ≠ str "image/pwg-raster" →
        selectPrintRoute platform options = .rasterThenIPP) ∧
      (startsWithL (str "image/") (toLowerL (options.mimeType.getD [])) = false →
        selectPrintRoute platform options = .directIPP) ∧
      (toLowerL (options.mimeType.getD []) = str "image/pwg-raster" →
        selectPrintRoute platform options = .directIPP)) := by
  refine ⟨?_, ?_, ?_⟩
  · simp [submitPrintJob, hfind, honline]
  · intro hplat
    simp [selectPrintRoute, hplat]
  · intro hplat
    refine ⟨?_, ?_, ?_⟩
    · intro himg hne
      simp [selectPrintRoute, hplat, himg, hne]
    · intro himg
      simp [selectPrintRoute, hplat, himg]
    · intro hpwg
      simp [selectPrintRoute, hplat, hpwg]

/-- Witness for C1: a registry holding the sample printer, a platform
without a spooler and a PNG payload route to the raster-then-IPP
transport. -/
theorem C1_dispatch_priority_witness :
    ([samplePrinter].find? (fun q => q.id == samplePrinter.id) = some samplePrinter) ∧
    samplePrinter.online = true ∧
    submitPrintJob [samplePrinter] (str "win32") samplePrinter.id
      { mimeType := some (str "image/png"), copies := none, sides := none
      , colorMode := none, userName := none }
      = .ok (samplePrinter,
          selectPrintRoute (str "win32")
            { mimeType := some (str "image/png"), copies := none, sides := none
            , colorMode := none, userName := none }) :=
  ⟨by decide, by decide,
   (C1_dispatch_priority [samplePrinter] (str "win32") samplePrinter.id
      { mimeType := some (str "image/png"), copies := none, sides := none
      , colorMode := none, userName := none } samplePrinter (by decide) (by decide)).1⟩



/-- C3 counterexample: for printer name `"EPSON L3250 Series"` against the
queue list `["EPSON_L3250_Series_2", "HP_OfficeJet"]` the Queue Matcher
returns no match — the claimed substring rule also fails, because the
lowercased name contains spaces where the queue name has underscores — so
`"EPSON_L3250_Series_2"` is not selected. -/
theorem C3_counterexample :
    mapPrinterToCUPS (str "EPSON L3250 Series")
      [str "EPSON_L3250_Series_2", str "HP_OfficeJet"] = none ∧
    mapPrinterToCUPS (str "EPSON L3250 Series")
      [str "EPSON_L3250_Series_2", str "HP_OfficeJet"]
      ≠ some (str "EPSON_L3250_Series_2") := by
  refine ⟨by decide, by decide⟩

/-- C3 (amended): the Queue Matcher applies its three rules in strict
priority order — (a) case-insensitive exact, (b) case-insensitive after
stripping non-alphanumerics, (c) case-insensitive substring containment in
either direction — returning the first queue matched by the highest
applicable rule and no match when all three fail; on the spec's EPSON
example all three rules fail, so no queue is selected. -/
theorem C3_queue_matcher (name : List Char) (queues : List (List Char)) :
    (∀ q, queues.find? (fun q2 => toLowerL q2 == toLowerL name) = some q →
      mapPrinterToCUPS name queues = some q) ∧
    (∀ q, queues.find? (fun q2 => toLowerL q2 == toLowerL name) = none →
      queues.find? (fun q2 =>
          toLowerL (stripNonAlnum q2) == toLowerL (stripNonAlnum name)) = some q →
      mapPrinterToCUPS name queues = some q) ∧
    (queues.find? (fun q2 => toLowerL q2 == toLowerL name) = none →
      queues.find? (fun q2 =>
          toLowerL (stripNonAlnum q2) == toLowerL (stripNonAlnum name)) = none →
      mapPrinterToCUPS name queues = queues.find? (fun q2 =>
        containsSub (toLowerL q2) (toLowerL name) ||
        containsSub (toLowerL name) (toLowerL q2))) ∧
    mapPrinterToCUPS (str "EPSON L3250 Series")
      [str "EPSON_L3250_Series_2", str "HP_OfficeJet"] = none := by
  refine ⟨?_, ?_, ?_, by decide⟩
  · intro q hq
    simp [mapPrinterToCUPS, hq]
  · intro q hnone hq
    simp [mapPrinterToCUPS, hnone, hq]
  · intro hnone1 hnone2
    cases hsub : queues.find? (fun q2 =>
        containsSub (toLowerL q2) (toLowerL name) ||
        containsSub (toLowerL name) (toLowerL q2)) with
    | none => simp [mapPrinterToCUPS, hnone1, hnone2, hsub]
    | some q => simp [mapPrinterToCUPS, hnone1, hnone2, hsub]

/-- Witness for the amended C3 at the EPSON example: rules (a) and (b)
find nothing and the matcher's result is rule (c)'s result. -/
theorem C3_queue_matcher_witness :
    ([str "EPSON_L3250_Series_2", str "HP_OfficeJet"].find?
        (fun q2 => toLowerL q2 == toLowerL (str "EPSON L3250 Series")) = none) ∧
    ([str "EPSON_L3250_Series_2", str "HP_OfficeJet"].find?
        (fun q2 => toLowerL (stripNonAlnum q2)
          == toLowerL (stripNonAlnum (str "EPSON L3250 Series"))) = none) ∧
    mapPrinterToCUPS (str "EPSON L3250 Series")
        [str "EPSON_L3250_Series_2", str "HP_OfficeJet"]
      = [str "EPSON_L3250_Series_2", str "HP_OfficeJet"].find? (fun q2 =>
          containsSub (toLowerL q2) (toLowerL (str "EPSON L3250 Series")) ||
          containsSub (toLowerL (str "EPSON L3250 Series")) (toLowerL q2)) :=
  ⟨by decide, by decide,
   (C3_queue_matcher (str "EPSON L3250 Series")
      [str "EPSON_L3250_Series_2", str "HP_OfficeJet"]).2.2.1 (by decide) (by decide)⟩



/-- C4 counterexample: a submission failure whose message merely contains
`'426'` is not the unparseable-response condition, yet the Protocol
Transport normalizes it to a successful result instead of propagating an
error — refuting "all other probe/submission failures propagate as
errors". -/
theorem C4_counterexample :
    str "Received unexpected status 426" ≠ str "Data required" ∧
    submitPrintJobViaIPP
        (SubmitOutcome.failure (str "Received unexpected status 426") (str ""))
        samplePrinter
      = .ok { jobId := none, jobState := some (str "unknown")
            , printerId := samplePrinter.id, printerName := samplePrinter.name } := by
  exact ⟨by decide, rfl⟩

/-- C4 (amended): the `'Data required'` (unparseable response body)
failure is normalized to success everywhere — probes resolve with
capabilities unchanged, the periodic sweep then marks the entry online
with `lastSeen` refreshed, and submissions resolve with a null job id and
`'unknown'` state; any other probe failure propagates as an error, and a
submission failure propagates as an error unless its message contains
`'426'`, which is also normalized to success. -/
theorem C4_quirk_normalization (p : Printer) (now : Nat) (msg code : List Char)
    (hwin : now - p.lastSeen ≤ 60000) (hmsg : msg ≠ str "Data required") :
    applyProbe (.failure (str "Data required") code) p = .ok p ∧
    refreshEntry now (.failure (str "Data required") code) p
      = ({ p with lastSeen := now, online := true },
         [PEvent.updated { p with lastSeen := now, online := true }]) ∧
    submitPrintJobViaIPP (.failure (str "Data required") code) p
      = .ok { jobId := none, jobState := some (str "unknown")
            , printerId := p.id, printerName := p.name } ∧
    applyProbe (.failure msg code) p = .error msg ∧
    (containsSub msg (str "426") = false →
      submitPrintJobViaIPP (.failure msg code) p = .error msg) ∧
    (containsSub msg (str "426") = true →
      submitPrintJobViaIPP (.failure msg code) p
        = .ok { jobId := none, jobState := some (str "unknown")
              , printerId := p.id, printerName := p.name }) := by
  refine ⟨?_, ?_, ?_, ?_, ?_, ?_⟩
  · simp [applyProbe]
  · have hc : ¬(now - p.lastSeen > 60000) := by omega
    simp [refreshEntry, hc, applyProbe]
  · simp [submitPrintJobViaIPP, submitOutcomeResult]
  · simp [applyProbe, hmsg]
  · intro h426
    simp [submitPrintJobViaIPP, submitOutcomeResult, hmsg, h426]
  · intro h426
    simp [submitPrintJobViaIPP, submitOutcomeResult, hmsg, h426]

/-- Witness for the amended C4 at the sample printer with a genuine
failure message. -/
theorem C4_quirk_normalization_witness :
    ((2000 : Nat) - samplePrinter.lastSeen ≤ 60000) ∧
    str "connect ECONNREFUSED" ≠ str "Data required" ∧
    applyProbe (.failure (str "Data required") (str "")) samplePrinter
      = .ok samplePrinter ∧
    applyProbe (.failure (str "connect ECONNREFUSED") (str "")) samplePrinter
      = .error (str "connect ECONNREFUSED") :=
  have hm := C4_quirk_normalization samplePrinter 2000
    (str "connect ECONNREFUSED") (str "") (by decide) (by decide)
  ⟨by decide, by decide, hm.1, hm.2.2.2.1⟩


/-! ## Registry identity and liveness claims (C5, C6) -/


/-- A successful probe leaves identity and liveness fields untouched: it
only fills `capabilities` and maps the state code to `status`. -/
theorem applyProbe_ok_preserves (o : IppResult) (p b : Printer)
    (h : applyProbe o p = .ok b) :
    b.id = p.id ∧ b.name = p.name ∧ b.online = p.online ∧
    b.lastSeen = p.lastSeen ∧ b.uri = p.uri := by
  cases o with
  | failure msg code =>
      by_cases hm : msg = str "Data required"
      · simp [applyProbe, hm] at h
        simp [← h]
      · simp [applyProbe, hm] at h
  | success attrs =>
      simp [applyProbe] at h
      simp [← h]

/-- The discovery-time enrichment never changes identity or liveness
fields. -/
theorem enrichNew_preserves (o : IppResult) (b : Printer) :
    (enrichNew o b).id = b.id ∧ (enrichNew o b).online = b.online ∧
    (enrichNew o b).lastSeen = b.lastSeen := by
  unfold enrichNew
  cases happ : applyProbe o b with
  | ok b2 =>
      obtain ⟨h1, _, h3, h4, _⟩ := applyProbe_ok_preserves o b b2 happ
      exact ⟨h1, h3, h4⟩
  | error m => exact ⟨rfl, rfl, rfl⟩

/-- `find?` by id over an id-preserving pointwise update returns the
updated version of the entry it found before. -/
theorem find?_map_update (reg : List Printer) (pid : List Char)
    (f : Printer → Printer) (hid : ∀ q, (f q).id = q.id) (p : Printer)
    (hfind : reg.find? (fun q => q.id == pid) = some p) :
    (reg.map (fun q => if q.id == pid then f q else q)).find?
        (fun q => q.id == pid) = some (f p) := by
  induction reg with
  | nil => simp at hfind
  | cons r t ih =>
      by_cases hr : r.id = pid
      · rw [List.find?_cons_of_pos _ (by simp [hr])] at hfind
        injection hfind with hrp
        subst hrp
        simp only [List.map_cons, if_pos (by simp [hr] : (r.id == pid) = true)]
        rw [List.find?_cons_of_pos _ (by simp [hid, hr])]
      · rw [List.find?_cons_of_neg _ (by simp [hr])] at hfind
        simp only [List.map_cons, if_neg (by simp [hr] : ¬(r.id == pid) = true)]
        rw [List.find?_cons_of_neg _ (by simp [hr])]
        exact ih hfind

/-- Entries whose id differs from the updated id survive an update
untouched. -/
theorem mem_map_update_of_ne (reg : List Printer) (pid : List Char)
    (f : Printer → Printer) (q : Printer) (hq : q ∈ reg) (hne : q.id ≠ pid) :
    q ∈ reg.map (fun r => if r.id == pid then f r else r) := by
  have e : (if q.id == pid then f q else q) = q := by simp [hne]
  rw [← e]
  exact List.mem_map_of_mem _ hq

/-- A discovery event for an already-registered id rewrites the registry
by the pointwise refresh and emits an update exactly when the entry was
offline. -/
theorem discovered_existing (hash : List Char → List Char) (reg : List Printer)
    (s : MDNSService) (now : Nat) (o : IppResult) (p : Printer)
    (hname : s.name ≠ [])
    (hfind : reg.find? (fun q => q.id == hash (idData s)) = some p) :
    onPrinterDiscovered hash reg s now o
      = (reg.map (fun q => if q.id == hash (idData s) then
            (if p.online then { q with lastSeen := now }
             else { q with lastSeen := now, online := true, status := PStatus.idle })
           else q),
         if p.online then []
         else [PEvent.updated
            { p with lastSeen := now, online := true, status := PStatus.idle }]) := by
  by_cases ho : p.online
  · simp [onPrinterDiscovered, hname, hfind, ho]
  · simp [onPrinterDiscovered, hname, hfind, ho]

/-- After any discovery event the discovered id is present, with
`lastSeen` stamped to the event time. -/
theorem discovered_find (hash : List Char → List Char) (reg : List Printer)
    (s : MDNSService) (now : Nat) (o : IppResult) (hname : s.name ≠ []) :
    ∃ e, ((onPrinterDiscovered hash reg s now o).1).find?
        (fun q => q.id == hash (idData s)) = some e ∧ e.lastSeen = now := by
  cases hfind : reg.find? (fun q => q.id == hash (idData s)) with
  | some p =>
      rw [discovered_existing hash reg s now o p hname hfind]
      by_cases ho : p.online
      · refine ⟨{ p with lastSeen := now }, ?_, rfl⟩
        have e := find?_map_update reg (hash (idData s))
          (fun q => { q with lastSeen := now }) (fun q => rfl) p hfind
        simpa [ho] using e
      · refine ⟨{ p with lastSeen := now, online := true, status := PStatus.idle }, ?_, rfl⟩
        have e := find?_map_update reg (hash (idData s))
          (fun q => { q with lastSeen := now, online := true, status := PStatus.idle })
          (fun q => rfl) p hfind
        simpa [ho] using e
  | none =>
      refine ⟨enrichNew o (discoveredBase hash s now), ?_, ?_⟩
      · simp only [onPrinterDiscovered, if_neg hname, hfind]
        rw [List.find?_append, hfind]
        simp only [Option.none_or]
        rw [List.find?_cons_of_pos]
        show ((enrichNew o (discoveredBase hash s now)).id == hash (idData s)) = true
        rw [(enrichNew_preserves o (discoveredBase hash s now)).1]
        simp [discoveredBase]
      · rw [(enrichNew_preserves o (discoveredBase hash s now)).2.2]
        rfl



/-- C5: the printer id is a pure function of the (name, host-or-address,
port-or-631) triple — equal triples give equal id data, hence equal
hashes — and a second discovery of the same triple updates the existing
entry in place: the registry size is unchanged, the entry's `lastSeen`
becomes the second event's time, an offline entry flips to online/idle
with a `printer-updated` event, an online entry changes no other field
and emits nothing, and every other entry is untouched. -/
theorem C5_identity_stability (hash : List Char → List Char) (reg : List Printer)
    (s1 s2 : MDNSService) (t1 t2 : Nat) (o1 o2 : IppResult)
    (hname : s1.name ≠ [])
    (hn : s2.name = s1.name) (hh : jsHost s2 = jsHost s1) (hp : jsPort s2 = jsPort s1) :
    idData s2 = idData s1 ∧
    hash (idData s2) = hash (idData s1) ∧
    ∃ p1, ((onPrinterDiscovered hash reg s1 t1 o1).1).find?
        (fun q => q.id == hash (idData s1)) = some p1 ∧
      (onPrinterDiscovered hash (onPrinterDiscovered hash reg s1 t1 o1).1 s2 t2 o2).1.length
        = (onPrinterDiscovered hash reg s1 t1 o1).1.length ∧
      ((onPrinterDiscovered hash (onPrinterDiscovered hash reg s1 t1 o1).1 s2 t2 o2).1).find?
          (fun q => q.id == hash (idData s1))
        = some (if p1.online then { p1 with lastSeen := t2 }
                else { p1 with lastSeen := t2, online := true, status := PStatus.idle }) ∧
      (p1.online = true →
        (onPrinterDiscovered hash (onPrinterDiscovered hash reg s1 t1 o1).1 s2 t2 o2).2 = []) ∧
      (p1.online = false →
        (onPrinterDiscovered hash (onPrinterDiscovered hash reg s1 t1 o1).1 s2 t2 o2).2
          = [PEvent.updated { p1 with lastSeen := t2, online := true, status := PStatus.idle }]) ∧
      (∀ q ∈ (onPrinterDiscovered hash reg s1 t1 o1).1, q.id ≠ hash (idData s1) →
        q ∈ (onPrinterDiscovered hash (onPrinterDiscovered hash reg s1 t1 o1).1 s2 t2 o2).1) := by
  have hid : idData s2 = idData s1 := by
    rw [idData, idData, hn, hh, hp]
  have hpid : hash (idData s2) = hash (idData s1) := by rw [hid]
  obtain ⟨p1, hfind1, _⟩ := discovered_find hash reg s1 t1 o1 hname
  have hname2 : s2.name ≠ [] := by rw [hn]; exact hname
  have hfind1' : ((onPrinterDiscovered hash reg s1 t1 o1).1).find?
      (fun q => q.id == hash (idData s2)) = some p1 := by
    rw [hpid]; exact hfind1
  have h2 := discovered_existing hash (onPrinterDiscovered hash reg s1 t1 o1).1
    s2 t2 o2 p1 hname2 hfind1'
  rw [hpid] at h2
  refine ⟨hid, hpid, p1, hfind1, ?_, ?_, ?_, ?_, ?_⟩
  · rw [h2]
    simp
  · rw [h2]
    by_cases hop : p1.online
    · simp only [hop, if_true]
      have e := find?_map_update (onPrinterDiscovered hash reg s1 t1 o1).1
        (hash (idData s1)) (fun q => { q with lastSeen := t2 }) (fun q => rfl) p1 hfind1
      simpa [hop] using e
    · simp only [hop, if_false, Bool.false_eq_true]
      have e := find?_map_update (onPrinterDiscovered hash reg s1 t1 o1).1
        (hash (idData s1))
        (fun q => { q with lastSeen := t2, online := true, status := PStatus.idle })
        (fun q => rfl) p1 hfind1
      simpa [hop] using e
  · intro hop
    rw [h2]
    simp [hop]
  · intro hop
    rw [h2]
    simp [hop]
  · intro q hq hne
    rw [h2]
    simp only
    exact mem_map_update_of_ne _ _ _ q hq hne



/-- Witness for C5: rediscovering the sample service (with the identity
digest) leaves the one-entry registry the same size. -/
theorem C5_identity_stability_witness :
    sampleService.name ≠ [] ∧
    (onPrinterDiscovered (fun d => d)
        ((onPrinterDiscovered (fun d => d) [] sampleService 500
            (.failure (str "Data required") (str ""))).1)
        sampleService 900 (.failure (str "Data required") (str ""))).1.length
      = ((onPrinterDiscovered (fun d => d) [] sampleService 500
            (.failure (str "Data required") (str ""))).1).length := by
  have hm := C5_identity_stability (fun d => d) [] sampleService sampleService
    500 900 (.failure (str "Data required") (str ""))
    (.failure (str "Data required") (str "")) (by decide) rfl rfl rfl
  obtain ⟨_, _, p1, _, hlen, _⟩ := hm
  exact ⟨by decide, hlen⟩

/-- C6: liveness transitions.  An online entry goes offline only in the
sweep and only past the 60 s window (status becomes offline, an update
event fires, `lastSeen` is untouched); an offline entry comes back online
in the sweep only within the window and only on a successful or
quirk-normalized probe (refreshing `lastSeen`); a genuine probe failure
inside the window leaves the entry and event stream untouched; past the
window an already-offline entry is untouched; and a discovery event never
takes an entry offline and flips offline entries online only for the
discovered id. -/
theorem C6_liveness_transitions (now : Nat) (o : IppResult) (p : Printer)
    (msg code : List Char) :
    (p.online = true → (refreshEntry now o p).1.online = false →
      now - p.lastSeen > 60000 ∧
      (refreshEntry now o p).1.status = PStatus.offline ∧
      (refreshEntry now o p).1.lastSeen = p.lastSeen ∧
      (refreshEntry now o p).2 = [PEvent.updated (refreshEntry now o p).1]) ∧
    (p.online = false → (refreshEntry now o p).1.online = true →
      now - p.lastSeen ≤ 60000 ∧
      ((∃ attrs, o = .success attrs) ∨ (∃ c, o = .failure (str "Data required") c)) ∧
      (refreshEntry now o p).1.lastSeen = now) ∧
    (now - p.lastSeen ≤ 60000 → msg ≠ str "Data required" →
      refreshEntry now (.failure msg code) p = (p, [])) ∧
    (now - p.lastSeen > 60000 → p.online = false →
      refreshEntry now o p = (p, [])) ∧
    (∀ hash reg s t oo, s.name ≠ [] →
      ∀ q ∈ reg, ∃ q', q' ∈ (onPrinterDiscovered hash reg s t oo).1 ∧
        q'.id = q.id ∧
        (q.online = true → q'.online = true) ∧
        (q'.online = true → q.online = false → q.id = hash (idData s))) := by
  refine ⟨?_, ?_, ?_, ?_, ?_⟩
  · intro h1 h2
    by_cases hw : now - p.lastSeen > 60000
    · refine ⟨hw, ?_, ?_, ?_⟩ <;> simp [refreshEntry, hw, h1]
    · exfalso
      cases happ : applyProbe o p with
      | ok b => simp [refreshEntry, hw, happ] at h2
      | error m =>
          by_cases hq : m = str "Data required" <;>
            simp [refreshEntry, hw, happ, hq, h1] at h2
  · intro h1 h2
    by_cases hw : now - p.lastSeen > 60000
    · exfalso
      simp [refreshEntry, hw, h1] at h2
    · have hdisj : (∃ attrs, o = .success attrs) ∨
          (∃ c, o = .failure (str "Data required") c) := by
        cases o with
        | success attrs => exact Or.inl ⟨attrs, rfl⟩
        | failure m c =>
            by_cases hq : m = str "Data required"
            · exact Or.inr ⟨c, by rw [hq]⟩
            · exfalso
              simp [refreshEntry, hw, applyProbe, hq, h1] at h2
      refine ⟨by omega, hdisj, ?_⟩
      cases happ : applyProbe o p with
      | ok b => simp [refreshEntry, hw, happ]
      | error m =>
          by_cases hq : m = str "Data required"
          · simp [refreshEntry, hw, happ, hq]
          · exfalso
            simp [refreshEntry, hw, happ, hq, h1] at h2
  · intro hwle hne
    have hw : ¬(now - p.lastSeen > 60000) := by omega
    rw [refreshEntry, if_neg hw]
    simp [applyProbe, hne]
  · intro hw ho
    simp [refreshEntry, hw, ho]
  · intro hash reg s t oo hname q hq
    cases hfind : reg.find? (fun r => r.id == hash (idData s)) with
    | some p1 =>
        rw [discovered_existing hash reg s t oo p1 hname hfind]
        by_cases hqid : q.id = hash (idData s)
        · refine ⟨if p1.online then { q with lastSeen := t }
              else { q with lastSeen := t, online := true, status := PStatus.idle },
            ?_, ?_, ?_, ?_⟩
          · have e : (fun r => if r.id == hash (idData s) then
                (if p1.online then { r with lastSeen := t }
                 else { r with lastSeen := t, online := true, status := PStatus.idle })
                else r) q
                = (if p1.online then { q with lastSeen := t }
                   else { q with lastSeen := t, online := true, status := PStatus.idle }) := by
              simp [hqid]
            rw [← e]
            exact List.mem_map_of_mem _ hq
          · by_cases hop : p1.online <;> simp [hop]
          · intro hqon
            by_cases hop : p1.online <;> simp [hop, hqon]
          · intro _ _
            exact hqid
        · refine ⟨q, ?_, rfl, fun hh2 => hh2, ?_⟩
          · exact mem_map_update_of_ne reg _ _ q hq hqid
          · intro h1 h2
            rw [h2] at h1
            cases h1
    | none =>
        refine ⟨q, ?_, rfl, fun hh2 => hh2, ?_⟩
        · have e : (onPrinterDiscovered hash reg s t oo).1
              = reg ++ [enrichNew oo (discoveredBase hash s t)] := by
            simp [onPrinterDiscovered, hname, hfind]
          rw [e]
          exact List.mem_append_left _ hq
        · intro h1 h2
          rw [h2] at h1
          cases h1

/-- Witness for C6: a genuine failure inside the window leaves the sample
printer untouched. -/
theorem C6_liveness_transitions_witness :
    ((2000 : Nat) - samplePrinter.lastSeen ≤ 60000) ∧
    str "connect EHOSTUNREACH" ≠ str "Data required" ∧
    refreshEntry 2000 (.failure (str "connect EHOSTUNREACH") (str "")) samplePrinter
      = (samplePrinter, []) :=
  have hm := C6_liveness_transitions 2000
    (.failure (str "connect EHOSTUNREACH") (str "")) samplePrinter
    (str "connect EHOSTUNREACH") (str "")
  ⟨by decide, by decide, hm.2.2.1 (by decide) (by decide)⟩


/-! ## Transport claims (C8, C9, C10) -/


theorem startsWithL_append (s t : List Char) : startsWithL s (s ++ t) = true := by
  induction s with
  | nil => rfl
  | cons c cs ih => simp [startsWithL, ih]

/-- C8 counterexample: the sample printer was discovered over plain `ipp`
(no secure variant recorded in the registry), yet the Print-Job request's
`printer-uri` attribute carries the `ipps` variant. -/
theorem C8_counterexample :
    samplePrinter.ptype = str "ipp" ∧
    samplePrinter.uri = str "ipp://192.168.1.50:631/ipp/print" ∧
    (buildIPPJobMsg samplePrinter (str "doc.pdf")
        { mimeType := none, copies := none, sides := none
        , colorMode := none, userName := none }).printerUri
      = str "ipps://192.168.1.50:631/ipp/print" ∧
    (buildIPPJobMsg samplePrinter (str "doc.pdf")
        { mimeType := none, copies := none, sides := none
        , colorMode := none, userName := none }).printerUri
      ≠ samplePrinter.uri := by
  exact ⟨by decide, by decide, by decide, by decide⟩

/-- C8 (amended): the Print-Job request's `printer-uri` attribute always
carries the `ipps` form — a registry URI with the plain `ipp:` scheme is
rewritten to `ipps:` regardless of what the registry recorded, while a URI
already carrying another scheme (such as `ipps:`) is passed through — and
the optional copy count, duplex-sides and color-mode attributes are
present exactly when the caller supplied a truthy (nonzero / nonempty)
value. -/
theorem C8_request_attributes (p : Printer) (fileName : List Char)
    (options : JobOptions) :
    (buildIPPJobMsg p fileName options).printerUri = upgradeIppUri p.uri ∧
    (∀ rest, p.uri = str "ipp:" ++ rest →
      (buildIPPJobMsg p fileName options).printerUri = str "ipps:" ++ rest) ∧
    (startsWithL (str "ipp:") p.uri = false →
      (buildIPPJobMsg p fileName options).printerUri = p.uri) ∧
    (∀ rest, p.uri = str "ipps:" ++ rest →
      (buildIPPJobMsg p fileName options).printerUri = p.uri) ∧
    (∀ n, (buildIPPJobMsg p fileName options).copies = some n ↔
      (options.copies = some n ∧ n ≠ 0)) ∧
    (∀ s, (buildIPPJobMsg p fileName options).sides = some s ↔
      (options.sides = some s ∧ s ≠ [])) ∧
    (∀ m, (buildIPPJobMsg p fileName options).colorMode = some m ↔
      (options.colorMode = some m ∧ m ≠ [])) := by
  refine ⟨rfl, ?_, ?_, ?_, ?_, ?_, ?_⟩
  · intro rest huri
    show upgradeIppUri p.uri = _
    rw [huri, upgradeIppUri, if_pos (startsWithL_append (str "ipp:") rest)]
    congr 1
  · intro hns
    show upgradeIppUri p.uri = p.uri
    rw [upgradeIppUri, if_neg (by simp [hns])]
  · intro rest huri
    show upgradeIppUri p.uri = p.uri
    rw [huri, upgradeIppUri,
      if_neg (by simp [show startsWithL (str "ipp:") (str "ipps:" ++ rest) = false from rfl])]
  · intro n
    cases hc : options.copies with
    | none => simp [buildIPPJobMsg, hc]
    | some m =>
        by_cases hm : m = 0
        · subst hm
          simp [buildIPPJobMsg, hc]
          exact fun h => h.symm
        · simp [buildIPPJobMsg, hc, hm]
          intro h
          omega
  · intro s
    cases hc : options.sides with
    | none => simp [buildIPPJobMsg, hc]
    | some t =>
        by_cases ht : t = []
        · subst ht
          simp [buildIPPJobMsg, hc]
        · simp [buildIPPJobMsg, hc, ht]
          intro h
          rw [← h]
          exact ht
  · intro m
    cases hc : options.colorMode with
    | none => simp [buildIPPJobMsg, hc]
    | some t =>
        by_cases ht : t = []
        · subst ht
          simp [buildIPPJobMsg, hc]
        · simp [buildIPPJobMsg, hc, ht]
          intro h
          rw [← h]
          exact ht



/-- Witness for the amended C8: the sample printer's plain URI is
rewritten to `ipps`, and a supplied copy count of 2 appears in the
request. -/
theorem C8_request_attributes_witness :
    samplePrinter.uri = str "ipp:" ++ str "//192.168.1.50:631/ipp/print" ∧
    (buildIPPJobMsg samplePrinter (str "doc.pdf")
        { mimeType := some (str "application/pdf"), copies := some 2
        , sides := none, colorMode := none, userName := none }).printerUri
      = str "ipps:" ++ str "//192.168.1.50:631/ipp/print" ∧
    ((buildIPPJobMsg samplePrinter (str "doc.pdf")
        { mimeType := some (str "application/pdf"), copies := some 2
        , sides := none, colorMode := none, userName := none }).copies = some 2 ↔
      (some 2 = some 2 ∧ (2 : Nat) ≠ 0)) :=
  have hm := C8_request_attributes samplePrinter (str "doc.pdf")
    { mimeType := some (str "application/pdf"), copies := some 2
    , sides := none, colorMode := none, userName := none }
  ⟨by decide, hm.2.1 (str "//192.168.1.50:631/ipp/print") (by decide),
   hm.2.2.2.2.1 2⟩

/-- C9: on every exit path of the Spooler Transport — command success or
failure alike — the staged temporary file has been deleted from the file
system by the time the result or error is produced; errors carry the
captured diagnostics and success carries the parsed job id with state
`processing`. -/
theorem C9_temp_cleanup (fs : List Char → Bool) (queues : List (List Char))
    (tmpdir : List Char) (p : Printer) (fileName : List Char)
    (options : JobOptions) (now : Nat) (outcome : ExecOutcome) :
    ((submitPrintJobViaCUPS fs queues tmpdir p fileName options now outcome).1)
        (tempFilePath tmpdir now fileName) = false ∧
    (∀ em so se, outcome = .failure em so se →
      (submitPrintJobViaCUPS fs queues tmpdir p fileName options now outcome).2
        = .error (str "CUPS error: " ++ jsOrStr (some se) em)) ∧
    (∀ so se, outcome = .success so se →
      (submitPrintJobViaCUPS fs queues tmpdir p fileName options now outcome).2
        = .ok { jobId := parseRequestId so, jobState := some (str "processing")
              , printerId := p.id, printerName := p.name }) := by
  refine ⟨?_, ?_, ?_⟩
  · cases outcome <;> simp [submitPrintJobViaCUPS]
  · intro em so se houtcome
    subst houtcome
    simp [submitPrintJobViaCUPS]
  · intro so se houtcome
    subst houtcome
    simp [submitPrintJobViaCUPS]

/-- Witness for C9: a successful `lp` run at concrete inputs leaves the
temp file absent and parses the queue's job id. -/
theorem C9_temp_cleanup_witness :
    ((submitPrintJobViaCUPS (fun _ => false) [] (str "/tmp") samplePrinter
        (str "doc.pdf")
        { mimeType := none, copies := none, sides := none
        , colorMode := none, userName := none } 100
        (.success (str "request id is EPSON_L3250_Series_2-27 (1 file(s))") (str ""))).1)
      (tempFilePath (str "/tmp") 100 (str "doc.pdf")) = false ∧
    parseRequestId (str "request id is EPSON_L3250_Series_2-27 (1 file(s))")
      = some (str "EPSON_L3250_Series_2-27") :=
  have hm := C9_temp_cleanup (fun _ => false) [] (str "/tmp") samplePrinter
    (str "doc.pdf")
    { mimeType := none, copies := none, sides := none
    , colorMode := none, userName := none } 100
    (.success (str "request id is EPSON_L3250_Series_2-27 (1 file(s))") (str ""))
  ⟨hm.1, by decide⟩

theorem containsSub_append (a s b : List Char) :
    containsSub (a ++ (s ++ b)) s = true := by
  unfold containsSub
  rw [List.any_eq_true]
  refine ⟨s ++ b, ?_, startsWithL_append s b⟩
  rw [List.mem_tails]
  exact List.suffix_append a (s ++ b)

/-- C10: the Spooler Transport's command is built by direct string
interpolation with the caller-supplied file name embedded verbatim and
unescaped; a benign file name yields the intended six shell fields, while
a file name containing a double quote breaks the quoting — the command no
longer parses as a single `lp` invocation on the staged file (here it
splits into seven fields). -/
theorem C10_shell_interpolation (q tf tmpdir fn : List Char) (copies now : Nat) :
    cupsCommand q copies tf
      = str "lp -d \"" ++ q ++ str "\" -n " ++ showNat copies ++ str " \"" ++
          tf ++ str "\"" ∧
    containsSub (cupsCommand q copies (tempFilePath tmpdir now fn)) fn = true ∧
    shellTokens (cupsCommand (str "EPSON_L3250_Series_2") 1
        (tempFilePath (str "/tmp") 100 (str "doc.pdf")))
      = [str "lp", str "-d", str "EPSON_L3250_Series_2", str "-n", str "1",
         str "/tmp/pairdrop-100-doc.pdf"] ∧
    shellTokens (cupsCommand (str "EPSON_L3250_Series_2") 1
        (tempFilePath (str "/tmp") 100 (str "a\" b.pdf")))
      ≠ [str "lp", str "-d", str "EPSON_L3250_Series_2", str "-n", str "1",
         str "/tmp/pairdrop-100-a\" b.pdf"] ∧
    (shellTokens (cupsCommand (str "EPSON_L3250_Series_2") 1
        (tempFilePath (str "/tmp") 100 (str "a\" b.pdf")))).length = 7 := by
  refine ⟨rfl, ?_, by decide, by decide, by decide⟩
  have e : cupsCommand q copies (tempFilePath tmpdir now fn)
      = (str "lp -d \"" ++ q ++ str "\" -n " ++ showNat copies ++ str " \"" ++
          tmpdir ++ str "/pairdrop-" ++ showNat now ++ str "-") ++ (fn ++ str "\"") := by
    simp [cupsCommand, tempFilePath, List.append_assoc]
  rw [e]
  exact containsSub_append _ fn _


end PairDrop
